import Mathlib

/-!
# Reservas: one in-memory store behind a REST and a SOAP front-end

A shallow embedding of `index.js`.  The two module-level variables `reservas`
and `nextId` become the record `Store`; every request handler becomes a
function from the store and the request to the new store and the response.

Modelling conventions.

* A request field is `Option String` (`personas` of a create request:
  `Option Int`), `none` being JavaScript's `undefined`.  The fields carry the
  types the WSDL of the file declares (`xsd:string`, `xsd:int`); bodies that
  carry objects, arrays or booleans in these fields are outside the model.
* `Number(personas)` is `personas` itself, `none` standing for `NaN`: every
  comparison with it is false.
* `mesasPorSucursal[k]` follows the property lookup of a JavaScript object
  literal: the two own keys give the table lists, the member names inherited
  from `Object.prototype` give a value that is truthy but not an array, every
  other key gives `undefined`.
* A handler that throws (a `TypeError` from calling `.find` or `.filter` on
  something that is not an array) yields `Except.error`; the store is left as
  it was at the throw.
* `nextId` is a natural number; the array never grows long enough for the
  floating-point rounding of `nextId++` to matter.
* `parseInt` returns a double.  An integer of magnitude at most `2 ^ 53` is
  held exactly; beyond that only the sign is kept (`Numero.grande`), the
  rounded value (possibly an infinity) is not modelled.
-/

namespace Reservas

/-! ## Data -/

/-- One entry of a branch of `mesasPorSucursal`: `{ id, capacidad }`. -/
structure Mesa where
  id : String
  capacidad : Int
deriving DecidableEq, Repr

/-- One element of `reservas`:
`{ id, clienteId, sucursalId, fecha, hora, personas, mesaId, estado }`. -/
structure Reserva where
  id : String
  clienteId : Option String
  sucursalId : Option String
  fecha : Option String
  hora : Option String
  personas : Int
  mesaId : String
  estado : String
deriving DecidableEq, Repr

/-- The module state: `let reservas = []; let nextId = 1;`. -/
structure Store where
  reservas : List Reserva
  nextId : Nat
deriving DecidableEq, Repr

/-- The store at start-up. -/
def Store.inicial : Store := { reservas := [], nextId := 1 }

/-- The value a property lookup on `mesasPorSucursal` produces. -/
inductive Propiedad where
  /-- The key is neither own nor inherited: `undefined`. -/
  | indefinida
  /-- An own key: the array of tables of the branch. -/
  | mesas (l : List Mesa)
  /-- A member inherited from `Object.prototype`: truthy, not an array. -/
  | heredada
deriving DecidableEq, Repr

/-- The member names an object literal inherits from `Object.prototype`. -/
def clavesHeredadas : List String :=
  ["constructor", "__proto__", "hasOwnProperty", "isPrototypeOf",
   "propertyIsEnumerable", "toLocaleString", "toString", "valueOf",
   "__defineGetter__", "__defineSetter__", "__lookupGetter__", "__lookupSetter__"]

/-- The catalog `mesasPorSucursal`, as the lookup `mesasPorSucursal[k]`. -/
def mesasPorSucursal (k : String) : Propiedad :=
  if k = "S01" then
    .mesas [{ id := "M1", capacidad := 2 }, { id := "M2", capacidad := 4 },
            { id := "M3", capacidad := 4 }]
  else if k = "S02" then
    .mesas [{ id := "M1", capacidad := 2 }, { id := "M2", capacidad := 2 }]
  else if k ∈ clavesHeredadas then .heredada
  else .indefinida

/-- The property key a (possibly undefined) string value denotes. -/
def propertyKey : Option String → String
  | none => "undefined"
  | some k => k

/-- Truthiness of a string-or-undefined value: `undefined` and `""` are falsy. -/
def truthyStr : Option String → Bool
  | none => false
  | some v => v != ""

/-- The expression `v || d` for a string-or-undefined `v` and a string `d`. -/
def oPorDefecto (v : Option String) (d : String) : String :=
  match v with
  | some x => if x != "" then x else d
  | none => d

/-- Truthiness of a number-or-undefined value: `undefined` and `0` are falsy. -/
def truthyNum : Option Int → Bool
  | none => false
  | some n => n != 0

/-- Truthiness of a looked-up property: only `undefined` is falsy. -/
def Propiedad.truthy : Propiedad → Bool
  | .indefinida => false
  | _ => true

/-- The expression `mesasPorSucursal[k] || []`; `none` is a value that is not
an array (it has no `find` and no `filter`). -/
def Propiedad.oVacio : Propiedad → Option (List Mesa)
  | .indefinida => some []
  | .mesas l => some l
  | .heredada => none

/-- The comparison `capacidad >= n` for a number `n` that may be `NaN`. -/
def alcanza (capacidad : Int) : Option Int → Bool
  | none => false
  | some n => decide (capacidad ≥ n)

/-- A number as `parseInt` produces it. -/
inductive Numero where
  /-- The value `NaN`. -/
  | nan
  /-- An integer of magnitude at most `2 ^ 53`, which a double holds exactly. -/
  | entero (n : Int)
  /-- The double nearest to an integer of magnitude above `2 ^ 53`, or the
  infinity of that sign; only the sign is kept. -/
  | grande (negativo : Bool)
deriving DecidableEq, Repr

/-- The comparison `capacidad >= n` for a number `n` from `parseInt`, for a
`capacidad` of magnitude below `2 ^ 53` (those of the catalog are 2 and 4):
false against `NaN`, false against a value of at least `2 ^ 53`, true against a
value of at most `-2 ^ 53`. -/
def alcanzaNumero (capacidad : Int) : Numero → Bool
  | .nan => false
  | .entero n => decide (capacidad ≥ n)
  | .grande negativo => negativo

/-- An uncaught JavaScript exception. -/
inductive JsError where
  | typeError
deriving DecidableEq, Repr

/-! ## Requests and responses -/

/-- The body of `POST /reservas` and the argument of the SOAP operation
(`CrearReservaRequest` in the WSDL). -/
structure CrearReservaRequest where
  clienteId : Option String
  sucursalId : Option String
  fecha : Option String
  hora : Option String
  personas : Option Int
deriving DecidableEq, Repr

/-- The result of the SOAP operation: `{ reservaId, estado }`. -/
structure CrearReservaResponse where
  reservaId : String
  estado : String
deriving DecidableEq, Repr

/-- The query string of `GET /disponibilidad`. -/
structure DisponibilidadQuery where
  sucursal : Option String
  fecha : Option String
  hora : Option String
  personas : Option String
deriving DecidableEq, Repr

/-- The JSON bodies the REST handlers send. -/
inductive RestBody where
  /-- The object `{ error }`. -/
  | error (error : String)
  /-- The object `{ reservaId, estado }`. -/
  | creada (reservaId : String) (estado : String)
  /-- A stored reservation. -/
  | reserva (r : Reserva)
  /-- The object `{ ok, estado }`. -/
  | cancelada (ok : Bool) (estado : String)
  /-- The object `{ sucursal, fecha, hora, solicitadasPersonas, disponibles }`. -/
  | disponibilidad (sucursal : String) (fecha : String) (hora : String)
      (solicitadasPersonas : Numero) (disponibles : List Mesa)
deriving DecidableEq, Repr

/-- A REST response: status code and JSON body. -/
structure RestResponse where
  status : Nat
  body : RestBody
deriving DecidableEq, Repr

/-! ## `parseInt(text, 10)` -/

/-- White space and line terminators, which `parseInt` skips at the start. -/
def esEspacioJs (c : Char) : Bool :=
  c.toNat ∈ [0x9, 0xA, 0xB, 0xC, 0xD, 0x20, 0xA0, 0x1680, 0x2028, 0x2029, 0x202F,
             0x205F, 0x3000, 0xFEFF]
    || (0x2000 ≤ c.toNat && c.toNat ≤ 0x200A)

/-- The value of a run of decimal digits. -/
def valorDigitos (ds : List Char) : Nat :=
  ds.foldl (fun acc c => 10 * acc + (c.toNat - 48)) 0

/-- The digits after the optional sign, and the sign. -/
def signoYResto : List Char → Bool × List Char
  | '-' :: r => (true, r)
  | '+' :: r => (false, r)
  | r => (false, r)

/-- The builtin `parseInt(text, 10)`: leading white space is skipped, one sign
is read, then the longest run of decimal digits.  No digit gives `NaN`; a value
of magnitude at most `2 ^ 53 = 9007199254740992` is returned exactly (`-0`
counts as `0`); a larger one is rounded to a double, of which the sign is kept. -/
def parseInt10 (text : String) : Numero :=
  let t := signoYResto (text.toList.dropWhile esEspacioJs)
  let ds := t.2.takeWhile Char.isDigit
  if ds.isEmpty then .nan
  else if valorDigitos ds ≤ 9007199254740992 then
    .entero (if t.1 then -(valorDigitos ds : Int) else (valorDigitos ds : Int))
  else .grande t.1

/-! ## The REST handlers -/

/-- The handler of `GET /disponibilidad`. -/
def getDisponibilidad (s : Store) (q : DisponibilidadQuery) :
    Store × Except JsError RestResponse :=
  if !truthyStr q.sucursal || !(mesasPorSucursal (propertyKey q.sucursal)).truthy then
    (s, .ok { status := 400,
              body := .error "Parámetro 'sucursal' inválido o faltante (e.g. S01)" })
  else
    let capNecesaria := parseInt10 (oPorDefecto q.personas "1")
    let ocupadas := (s.reservas.filter (fun r =>
      r.sucursalId == q.sucursal && r.fecha == q.fecha && r.hora == q.hora)).map (·.mesaId)
    match (mesasPorSucursal (propertyKey q.sucursal)).oVacio with
    | none => (s, .error .typeError)
    | some mesas =>
      let disponibles := mesas.filter (fun m =>
        !ocupadas.contains m.id && alcanzaNumero m.capacidad capNecesaria)
      (s, .ok { status := 200,
                body := .disponibilidad (propertyKey q.sucursal)
                  (oPorDefecto q.fecha "(no especificada)")
                  (oPorDefecto q.hora "(no especificada)")
                  capNecesaria disponibles })

/-- The handler of `POST /reservas`. -/
def postReservas (s : Store) (body : CrearReservaRequest) :
    Store × Except JsError RestResponse :=
  if !truthyStr body.clienteId || !truthyStr body.sucursalId || !truthyStr body.fecha
      || !truthyStr body.hora || !truthyNum body.personas then
    (s, .ok { status := 400,
              body := .error "Faltan campos: clienteId, sucursalId, fecha, hora, personas" })
  else
    match (mesasPorSucursal (propertyKey body.sucursalId)).oVacio with
    | none => (s, .error .typeError)
    | some mesas =>
      match mesas.find? (fun m => alcanza m.capacidad body.personas), body.personas with
      | some mesa, some personas =>
        let yaOcupada := s.reservas.any (fun r =>
          r.sucursalId == body.sucursalId && r.fecha == body.fecha && r.hora == body.hora
            && r.mesaId == mesa.id)
        if yaOcupada then
          (s, .ok { status := 409, body := .error "Mesa ocupada en ese horario" })
        else
          let nueva : Reserva :=
            { id := toString s.nextId
              clienteId := body.clienteId
              sucursalId := body.sucursalId
              fecha := body.fecha
              hora := body.hora
              personas := personas
              mesaId := mesa.id
              estado := "CREADA" }
          ({ reservas := s.reservas ++ [nueva], nextId := s.nextId + 1 },
           .ok { status := 201, body := .creada nueva.id nueva.estado })
      | _, _ =>
        (s, .ok { status := 409, body := .error "No hay mesa con capacidad suficiente" })

/-- The handler of `GET /reservas/:id`. -/
def getReserva (s : Store) (id : String) : Store × Except JsError RestResponse :=
  match s.reservas.find? (fun x => x.id == id) with
  | none => (s, .ok { status := 404, body := .error "No encontrada" })
  | some r => (s, .ok { status := 200, body := .reserva r })

/-- The assignment `reservas[idx].estado = "CANCELADA"`, on the element. -/
def cancelar (r : Reserva) : Reserva := { r with estado := "CANCELADA" }

/-- The handler of `DELETE /reservas/:id`. -/
def deleteReserva (s : Store) (id : String) : Store × Except JsError RestResponse :=
  match s.reservas.findIdx? (fun x => x.id == id) with
  | none => (s, .ok { status := 404, body := .error "No encontrada" })
  | some idx =>
    ({ s with reservas := s.reservas.modify cancelar idx },
     .ok { status := 200, body := .cancelada true "CANCELADA" })

/-! ## The SOAP operation -/

/-- The operation `ReservasService.ReservasPort.CrearReserva`. -/
def CrearReserva (s : Store) (args : CrearReservaRequest) :
    Store × Except JsError CrearReservaResponse :=
  match (mesasPorSucursal (propertyKey args.sucursalId)).oVacio with
  | none => (s, .error .typeError)
  | some mesas =>
    match mesas.find? (fun m => alcanza m.capacidad args.personas), args.personas with
    | some mesa, some personas =>
      let yaOcupada := s.reservas.any (fun r =>
        r.sucursalId == args.sucursalId && r.fecha == args.fecha && r.hora == args.hora
          && r.mesaId == mesa.id)
      if yaOcupada then
        (s, .ok { reservaId := "", estado := "OCUPADA" })
      else
        let nueva : Reserva :=
          { id := toString s.nextId
            clienteId := args.clienteId
            sucursalId := args.sucursalId
            fecha := args.fecha
            hora := args.hora
            personas := personas
            mesaId := mesa.id
            estado := "CREADA" }
        ({ reservas := s.reservas ++ [nueva], nextId := s.nextId + 1 },
         .ok { reservaId := nueva.id, estado := nueva.estado })
    | _, _ => (s, .ok { reservaId := "", estado := "SIN_MESA" })

/-! ## Executions -/

/-- One call to the service. -/
inductive Llamada where
  | postReservas (body : CrearReservaRequest)
  | crearReservaSoap (args : CrearReservaRequest)
  | getReserva (id : String)
  | deleteReserva (id : String)
  | getDisponibilidad (q : DisponibilidadQuery)
deriving DecidableEq, Repr

/-- The store after one call. -/
def paso (s : Store) : Llamada → Store
  | .postReservas body => (postReservas s body).1
  | .crearReservaSoap args => (CrearReserva s args).1
  | .getReserva id => (getReserva s id).1
  | .deleteReserva id => (deleteReserva s id).1
  | .getDisponibilidad q => (getDisponibilidad s q).1

/-- The store after a sequence of calls. -/
def ejecutar (s : Store) (llamadas : List Llamada) : Store :=
  llamadas.foldl paso s

/-- The stores the service can be in: those a sequence of calls produces from
the start-up store. -/
def Alcanzable (s : Store) : Prop :=
  ∃ llamadas : List Llamada, ejecutar Store.inicial llamadas = s

deriving instance DecidableEq for Except

/-! ## Vocabulary of the statements -/

/-- All five fields of a create request are present (truthy). -/
def CrearReservaRequest.completa (b : CrearReservaRequest) : Bool :=
  truthyStr b.clienteId && truthyStr b.sucursalId && truthyStr b.fecha
    && truthyStr b.hora && truthyNum b.personas

/-- The reservation a successful create stores. -/
def nuevaReserva (nextId : Nat) (b : CrearReservaRequest) (personas : Int) (mesa : Mesa) :
    Reserva :=
  { id := toString nextId, clienteId := b.clienteId, sucursalId := b.sucursalId,
    fecha := b.fecha, hora := b.hora, personas := personas, mesaId := mesa.id,
    estado := "CREADA" }

/-- Some stored reservation, whatever its `estado`, holds table `mesaId` at the
slot `(sucursalId, fecha, hora)`. -/
def Ocupada (s : Store) (sucursalId fecha hora : Option String) (mesaId : String) : Prop :=
  ∃ r ∈ s.reservas, r.sucursalId = sucursalId ∧ r.fecha = fecha ∧ r.hora = hora
    ∧ r.mesaId = mesaId

instance (s : Store) (sucursalId fecha hora : Option String) (mesaId : String) :
    Decidable (Ocupada s sucursalId fecha hora mesaId) := by
  unfold Ocupada; infer_instance

/-- The slot key of a reservation: `(sucursalId, fecha, hora, mesaId)`. -/
def slotKey (r : Reserva) : Option String × Option String × Option String × String :=
  (r.sucursalId, r.fecha, r.hora, r.mesaId)

/-! ## Example data (the scenarios of the specification) -/

/-- Scenario A: customer `C1`, branch `S01`, `2024-01-01` at `19:00`, 2 people. -/
def reqA : CrearReservaRequest :=
  { clienteId := some "C1", sucursalId := some "S01", fecha := some "2024-01-01",
    hora := some "19:00", personas := some 2 }

/-- The availability query for 2 people at the slot of scenario A. -/
def queryA : DisponibilidadQuery :=
  { sucursal := some "S01", fecha := some "2024-01-01", hora := some "19:00",
    personas := some "2" }

/-- The store after scenario A on the start-up store. -/
def storeA : Store := ejecutar Store.inicial [.postReservas reqA]

/-- Scenario A one hour later, sent to the SOAP operation. -/
def reqA20 : CrearReservaRequest := { reqA with hora := some "20:00" }

/-- The store after scenario A over REST and the later booking over SOAP. -/
def storeDos : Store :=
  ejecutar Store.inicial [.postReservas reqA, .crearReservaSoap reqA20]

/-- Scenario A without its `clienteId`. -/
def reqSinCliente : CrearReservaRequest := { reqA with clienteId := none }

/-- Scenario A at a branch the catalog does not have. -/
def reqS99 : CrearReservaRequest := { reqA with sucursalId := some "S99" }

/-- Scenario D: 5 people at S01. -/
def reqD : CrearReservaRequest := { reqA with personas := some 5 }

/-- A SOAP request without `fecha` and `hora`. -/
def reqSinFecha : CrearReservaRequest :=
  { clienteId := some "C1", sucursalId := some "S01", fecha := none, hora := none,
    personas := some 2 }

/-- The store after the SOAP operation received `reqSinFecha` at start-up. -/
def storeSinFecha : Store := ejecutar Store.inicial [.crearReservaSoap reqSinFecha]

/-- The availability query for 2 people at S01 with `fecha` and `hora` omitted. -/
def querySinFecha : DisponibilidadQuery :=
  { sucursal := some "S01", fecha := none, hora := none, personas := some "2" }

/-- The availability query whose `sucursal` is the inherited member name
`constructor`. -/
def queryConstructor : DisponibilidadQuery :=
  { sucursal := some "constructor", fecha := none, hora := none, personas := none }

/-- Scenario A with the inherited member name `constructor` as branch. -/
def reqConstructor : CrearReservaRequest := { reqA with sucursalId := some "constructor" }

/-- The store after scenario A followed by the cancellation of its reservation. -/
def storeACancelada : Store :=
  ejecutar Store.inicial [.postReservas reqA, .deleteReserva "1"]

/-! ## The create handlers, case by case -/

theorem alcanza_some_iff (c n : Int) : alcanza c (some n) = true ↔ n ≤ c := by
  simp [alcanza]

theorem find_alcanza_personas {l : List Mesa} {p : Option Int} {mesa : Mesa}
    (h : l.find? (fun m => alcanza m.capacidad p) = some mesa) :
    ∃ n, p = some n ∧ n ≤ mesa.capacidad := by
  have := List.find?_some h
  cases p with
  | none => simp [alcanza] at this
  | some n => exact ⟨n, rfl, by simpa [alcanza] using this⟩

theorem any_ocupada_iff (s : Store) (a f h : Option String) (mesaId : String) :
    s.reservas.any (fun r => r.sucursalId == a && r.fecha == f && r.hora == h
      && r.mesaId == mesaId) = true ↔ Ocupada s a f h mesaId := by
  simp [Ocupada, List.any_eq_true, and_assoc]

theorem CrearReserva_heredada (s : Store) (a : CrearReservaRequest)
    (hl : (mesasPorSucursal (propertyKey a.sucursalId)).oVacio = none) :
    CrearReserva s a = (s, .error .typeError) := by
  simp [CrearReserva, hl]

theorem CrearReserva_sinMesa (s : Store) (a : CrearReservaRequest) (l : List Mesa)
    (hl : (mesasPorSucursal (propertyKey a.sucursalId)).oVacio = some l)
    (hf : l.find? (fun m => alcanza m.capacidad a.personas) = none) :
    CrearReserva s a = (s, .ok { reservaId := "", estado := "SIN_MESA" }) := by
  simp [CrearReserva, hl, hf]

theorem CrearReserva_ocupada (s : Store) (a : CrearReservaRequest) (l : List Mesa) (mesa : Mesa)
    (hl : (mesasPorSucursal (propertyKey a.sucursalId)).oVacio = some l)
    (hf : l.find? (fun m => alcanza m.capacidad a.personas) = some mesa)
    (ho : Ocupada s a.sucursalId a.fecha a.hora mesa.id) :
    CrearReserva s a = (s, .ok { reservaId := "", estado := "OCUPADA" }) := by
  obtain ⟨n, hn, -⟩ := find_alcanza_personas hf
  have ho2 := (any_ocupada_iff s a.sucursalId a.fecha a.hora mesa.id).2 ho
  rw [hn] at hf
  simp only [CrearReserva, hl, hn, hf, ho2, if_true]

theorem CrearReserva_creada (s : Store) (a : CrearReservaRequest) (l : List Mesa) (mesa : Mesa)
    (n : Int)
    (hl : (mesasPorSucursal (propertyKey a.sucursalId)).oVacio = some l)
    (hf : l.find? (fun m => alcanza m.capacidad a.personas) = some mesa)
    (hn : a.personas = some n)
    (ho : ¬ Ocupada s a.sucursalId a.fecha a.hora mesa.id) :
    CrearReserva s a =
      ({ reservas := s.reservas ++ [nuevaReserva s.nextId a n mesa], nextId := s.nextId + 1 },
       .ok { reservaId := toString s.nextId, estado := "CREADA" }) := by
  have ho2 : s.reservas.any (fun r => r.sucursalId == a.sucursalId && r.fecha == a.fecha
      && r.hora == a.hora && r.mesaId == mesa.id) = false := by
    rw [Bool.eq_false_iff]; intro h; exact ho ((any_ocupada_iff _ _ _ _ _).1 h)
  rw [hn] at hf
  simp only [CrearReserva, hl, hn, hf, ho2, nuevaReserva]
  rfl


theorem postReservas_incompleta (s : Store) (b : CrearReservaRequest)
    (hc : b.completa = false) :
    postReservas s b =
      (s, .ok { status := 400,
                body := .error "Faltan campos: clienteId, sucursalId, fecha, hora, personas" }) := by
  have h : (!truthyStr b.clienteId || !truthyStr b.sucursalId || !truthyStr b.fecha
      || !truthyStr b.hora || !truthyNum b.personas) = true := by
    simp only [CrearReservaRequest.completa] at hc
    revert hc
    cases truthyStr b.clienteId <;> cases truthyStr b.sucursalId <;> cases truthyStr b.fecha
      <;> cases truthyStr b.hora <;> cases truthyNum b.personas <;> simp
  simp only [postReservas, h, if_true]

theorem completa_guard (b : CrearReservaRequest) (hc : b.completa = true) :
    (!truthyStr b.clienteId || !truthyStr b.sucursalId || !truthyStr b.fecha
      || !truthyStr b.hora || !truthyNum b.personas) = false := by
  simp only [CrearReservaRequest.completa] at hc
  revert hc
  cases truthyStr b.clienteId <;> cases truthyStr b.sucursalId <;> cases truthyStr b.fecha
    <;> cases truthyStr b.hora <;> cases truthyNum b.personas <;> simp

theorem postReservas_heredada (s : Store) (b : CrearReservaRequest)
    (hc : b.completa = true)
    (hl : (mesasPorSucursal (propertyKey b.sucursalId)).oVacio = none) :
    postReservas s b = (s, .error .typeError) := by
  simp [postReservas, completa_guard b hc, hl]

theorem postReservas_sinMesa (s : Store) (b : CrearReservaRequest) (l : List Mesa)
    (hc : b.completa = true)
    (hl : (mesasPorSucursal (propertyKey b.sucursalId)).oVacio = some l)
    (hf : l.find? (fun m => alcanza m.capacidad b.personas) = none) :
    postReservas s b =
      (s, .ok { status := 409, body := .error "No hay mesa con capacidad suficiente" }) := by
  simp [postReservas, completa_guard b hc, hl, hf]

theorem postReservas_ocupada (s : Store) (b : CrearReservaRequest) (l : List Mesa) (mesa : Mesa)
    (hc : b.completa = true)
    (hl : (mesasPorSucursal (propertyKey b.sucursalId)).oVacio = some l)
    (hf : l.find? (fun m => alcanza m.capacidad b.personas) = some mesa)
    (ho : Ocupada s b.sucursalId b.fecha b.hora mesa.id) :
    postReservas s b = (s, .ok { status := 409, body := .error "Mesa ocupada en ese horario" }) := by
  obtain ⟨n, hn, -⟩ := find_alcanza_personas hf
  have ho2 := (any_ocupada_iff s b.sucursalId b.fecha b.hora mesa.id).2 ho
  have hg := completa_guard b hc
  rw [hn] at hf hg
  simp only [postReservas, hg, hl, hn, hf, ho2, if_true]
  rfl

theorem postReservas_creada (s : Store) (b : CrearReservaRequest) (l : List Mesa) (mesa : Mesa)
    (n : Int) (hc : b.completa = true)
    (hl : (mesasPorSucursal (propertyKey b.sucursalId)).oVacio = some l)
    (hf : l.find? (fun m => alcanza m.capacidad b.personas) = some mesa)
    (hn : b.personas = some n)
    (ho : ¬ Ocupada s b.sucursalId b.fecha b.hora mesa.id) :
    postReservas s b =
      ({ reservas := s.reservas ++ [nuevaReserva s.nextId b n mesa], nextId := s.nextId + 1 },
       .ok { status := 201, body := .creada (toString s.nextId) "CREADA" }) := by
  have ho2 : s.reservas.any (fun r => r.sucursalId == b.sucursalId && r.fecha == b.fecha
      && r.hora == b.hora && r.mesaId == mesa.id) = false := by
    rw [Bool.eq_false_iff]; intro h; exact ho ((any_ocupada_iff _ _ _ _ _).1 h)
  have hg := completa_guard b hc
  rw [hn] at hf hg
  simp only [postReservas, hg, hl, hn, hf, ho2, nuevaReserva]
  rfl

/-! ## The catalog -/

theorem mesas_conocida {k : String} {l : List Mesa} (h : mesasPorSucursal k = .mesas l) :
    (k = "S01" ∧ l = [{ id := "M1", capacidad := 2 }, { id := "M2", capacidad := 4 },
        { id := "M3", capacidad := 4 }])
    ∨ (k = "S02" ∧ l = [{ id := "M1", capacidad := 2 }, { id := "M2", capacidad := 2 }]) := by
  unfold mesasPorSucursal at h
  split_ifs at h with h1 h2 h3
  · left; exact ⟨h1, by injection h with h; exact h.symm⟩
  · right; exact ⟨h2, by injection h with h; exact h.symm⟩

theorem oVacio_find_mesas {p : Propiedad} {l : List Mesa} {q : Mesa → Bool} {mesa : Mesa}
    (hl : p.oVacio = some l) (hf : l.find? q = some mesa) : p = .mesas l := by
  cases p with
  | indefinida => simp [Propiedad.oVacio] at hl; subst hl; simp at hf
  | mesas l2 => simp [Propiedad.oVacio] at hl; subst hl; rfl
  | heredada => simp [Propiedad.oVacio] at hl

theorem propertyKey_conocida {v : Option String} {l : List Mesa}
    (h : mesasPorSucursal (propertyKey v) = .mesas l) : v = some (propertyKey v) := by
  cases v with
  | none => exfalso; revert h; simp [propertyKey, mesasPorSucursal, clavesHeredadas]
  | some k => rfl

theorem catalogo_ids_unicos {k : String} {l : List Mesa} (h : mesasPorSucursal k = .mesas l) :
    ∀ m ∈ l, ∀ m2 ∈ l, m.id = m2.id → m = m2 := by
  rcases mesas_conocida h with ⟨-, rfl⟩ | ⟨-, rfl⟩ <;> decide


/-! ## Cancellation and the read-only handlers -/

theorem map_modify_of_eq {α β : Type} (f : α → β) (g : α → α) (hfg : ∀ a, f (g a) = f a) :
    ∀ (n : Nat) (l : List α), (l.modify g n).map f = l.map f := by
  intro n l
  induction l generalizing n with
  | nil => simp
  | cons a t ih =>
    cases n with
    | zero => simp [List.modify_zero_cons, hfg]
    | succ k => simp [List.modify_succ_cons, ih]

theorem mem_modify_cancelar {l : List Reserva} {idx : Nat} {r : Reserva}
    (h : r ∈ l.modify cancelar idx) : ∃ r0 ∈ l, r = r0 ∨ r = cancelar r0 := by
  induction l generalizing idx with
  | nil => simp at h
  | cons a t ih =>
    cases idx with
    | zero =>
      rw [List.modify_zero_cons, List.mem_cons] at h
      rcases h with h | h
      · exact ⟨a, List.mem_cons_self _ _, Or.inr h⟩
      · exact ⟨r, List.mem_cons_of_mem _ h, Or.inl rfl⟩
    | succ k =>
      rw [List.modify_succ_cons, List.mem_cons] at h
      rcases h with h | h
      · exact ⟨a, List.mem_cons_self _ _, Or.inl h⟩
      · obtain ⟨r0, hr0, hh⟩ := ih h
        exact ⟨r0, List.mem_cons_of_mem _ hr0, hh⟩

theorem deleteReserva_noEncontrada (s : Store) (id : String)
    (h : ∀ r ∈ s.reservas, r.id ≠ id) :
    deleteReserva s id = (s, .ok { status := 404, body := .error "No encontrada" }) := by
  have hn : s.reservas.findIdx? (fun x => x.id == id) = none := by
    rw [List.findIdx?_eq_none_iff]; intro r hr; simpa using h r hr
  simp only [deleteReserva, hn]

theorem deleteReserva_encontrada (s : Store) (id : String)
    (h : ∃ r ∈ s.reservas, r.id = id) :
    ∃ idx, s.reservas.findIdx? (fun x => x.id == id) = some idx ∧
      deleteReserva s id =
        ({ reservas := s.reservas.modify cancelar idx, nextId := s.nextId },
         .ok { status := 200, body := .cancelada true "CANCELADA" }) := by
  cases hi : s.reservas.findIdx? (fun x => x.id == id) with
  | none =>
    rw [List.findIdx?_eq_none_iff] at hi
    obtain ⟨r, hr, hid⟩ := h
    have := hi r hr
    simp [hid] at this
  | some idx => exact ⟨idx, rfl, by simp only [deleteReserva, hi]⟩

theorem getReserva_store (s : Store) (id : String) : (getReserva s id).1 = s := by
  unfold getReserva; split <;> rfl

theorem getDisponibilidad_store (s : Store) (q : DisponibilidadQuery) :
    (getDisponibilidad s q).1 = s := by
  unfold getDisponibilidad
  split_ifs
  · rfl
  · dsimp only; split <;> rfl

theorem findIdx_modify_of_eq {α : Type} (p : α → Bool) (g : α → α)
    (hpg : ∀ a, p (g a) = p a) :
    ∀ (n : Nat) (l : List α) (i : Nat), (l.modify g n).findIdx? p i = l.findIdx? p i := by
  intro n l
  induction l generalizing n with
  | nil => intro i; simp
  | cons a t ih =>
    intro i
    cases n with
    | zero => simp only [List.modify_zero_cons, List.findIdx?_cons, hpg]
    | succ k => simp only [List.modify_succ_cons, List.findIdx?_cons, ih]

theorem modify_modify_of_idem {α : Type} (g : α → α) (hg : ∀ a, g (g a) = g a) :
    ∀ (n : Nat) (l : List α), (l.modify g n).modify g n = l.modify g n := by
  intro n l
  induction l generalizing n with
  | nil => simp
  | cons a t ih =>
    cases n with
    | zero => simp only [List.modify_zero_cons, hg]
    | succ k => simp only [List.modify_succ_cons, ih]

theorem deleteReserva_deleteReserva (s : Store) (id : String)
    (h : ∃ r ∈ s.reservas, r.id = id) :
    deleteReserva (deleteReserva s id).1 id
      = ((deleteReserva s id).1, .ok { status := 200, body := .cancelada true "CANCELADA" }) := by
  obtain ⟨idx, hidx, hd⟩ := deleteReserva_encontrada s id h
  have hidx2 : (s.reservas.modify cancelar idx).findIdx? (fun x => x.id == id) = some idx := by
    rw [findIdx_modify_of_eq (fun x => x.id == id) cancelar (fun _ => rfl)]
    exact hidx
  rw [hd]
  simp only [deleteReserva, hidx2, modify_modify_of_idem cancelar (fun _ => rfl)]

/-! ## Executions: every step is a no-op, an insertion or a cancellation -/

theorem CrearReserva_cases (s : Store) (a : CrearReservaRequest) :
    (CrearReserva s a).1 = s
    ∨ ∃ l mesa n, mesasPorSucursal (propertyKey a.sucursalId) = .mesas l
        ∧ l.find? (fun m => alcanza m.capacidad (some n)) = some mesa
        ∧ a.personas = some n
        ∧ ¬ Ocupada s a.sucursalId a.fecha a.hora mesa.id
        ∧ (CrearReserva s a).1 =
            { reservas := s.reservas ++ [nuevaReserva s.nextId a n mesa],
              nextId := s.nextId + 1 } := by
  cases hl : (mesasPorSucursal (propertyKey a.sucursalId)).oVacio with
  | none => left; rw [CrearReserva_heredada s a hl]
  | some l =>
    cases hf : l.find? (fun m => alcanza m.capacidad a.personas) with
    | none => left; rw [CrearReserva_sinMesa s a l hl hf]
    | some mesa =>
      by_cases ho : Ocupada s a.sucursalId a.fecha a.hora mesa.id
      · left; rw [CrearReserva_ocupada s a l mesa hl hf ho]
      · right
        obtain ⟨n, hn, -⟩ := find_alcanza_personas hf
        refine ⟨l, mesa, n, oVacio_find_mesas hl hf, by rw [← hn]; exact hf, hn, ho, ?_⟩
        rw [CrearReserva_creada s a l mesa n hl hf hn ho]

theorem postReservas_cases (s : Store) (b : CrearReservaRequest) :
    (postReservas s b).1 = s
    ∨ ∃ l mesa n, mesasPorSucursal (propertyKey b.sucursalId) = .mesas l
        ∧ l.find? (fun m => alcanza m.capacidad (some n)) = some mesa
        ∧ b.personas = some n
        ∧ ¬ Ocupada s b.sucursalId b.fecha b.hora mesa.id
        ∧ (postReservas s b).1 =
            { reservas := s.reservas ++ [nuevaReserva s.nextId b n mesa],
              nextId := s.nextId + 1 } := by
  cases hc : b.completa with
  | false => left; rw [postReservas_incompleta s b hc]
  | true =>
    cases hl : (mesasPorSucursal (propertyKey b.sucursalId)).oVacio with
    | none => left; rw [postReservas_heredada s b hc hl]
    | some l =>
      cases hf : l.find? (fun m => alcanza m.capacidad b.personas) with
      | none => left; rw [postReservas_sinMesa s b l hc hl hf]
      | some mesa =>
        by_cases ho : Ocupada s b.sucursalId b.fecha b.hora mesa.id
        · left; rw [postReservas_ocupada s b l mesa hc hl hf ho]
        · right
          obtain ⟨n, hn, -⟩ := find_alcanza_personas hf
          refine ⟨l, mesa, n, oVacio_find_mesas hl hf, by rw [← hn]; exact hf, hn, ho, ?_⟩
          rw [postReservas_creada s b l mesa n hc hl hf hn ho]

theorem alcanzable_induccion (P : Store → Prop) (h0 : P Store.inicial)
    (hcrea : ∀ (s : Store) (a : CrearReservaRequest) (l : List Mesa) (mesa : Mesa) (n : Int),
      P s → mesasPorSucursal (propertyKey a.sucursalId) = .mesas l →
      l.find? (fun m => alcanza m.capacidad (some n)) = some mesa →
      ¬ Ocupada s a.sucursalId a.fecha a.hora mesa.id →
      P { reservas := s.reservas ++ [nuevaReserva s.nextId a n mesa], nextId := s.nextId + 1 })
    (hcancela : ∀ (s : Store) (idx : Nat), P s →
      P { reservas := s.reservas.modify cancelar idx, nextId := s.nextId }) :
    ∀ s, Alcanzable s → P s := by
  have paso_ok : ∀ (s : Store) (c : Llamada), P s → P (paso s c) := by
    intro s c hs
    cases c with
    | postReservas b =>
      rcases postReservas_cases s b with h | ⟨l, mesa, n, hl, hf, -, ho, h⟩
      · simp only [paso, h]; exact hs
      · simp only [paso, h]; exact hcrea s b l mesa n hs hl hf ho
    | crearReservaSoap a =>
      rcases CrearReserva_cases s a with h | ⟨l, mesa, n, hl, hf, -, ho, h⟩
      · simp only [paso, h]; exact hs
      · simp only [paso, h]; exact hcrea s a l mesa n hs hl hf ho
    | getReserva id => simp only [paso, getReserva_store]; exact hs
    | deleteReserva id =>
      by_cases h : ∃ r ∈ s.reservas, r.id = id
      · obtain ⟨idx, -, hd⟩ := deleteReserva_encontrada s id h
        simp only [paso, hd]; exact hcancela s idx hs
      · have hd := deleteReserva_noEncontrada s id (by
          intro r hr hid; exact h ⟨r, hr, hid⟩)
        simp only [paso, hd]; exact hs
    | getDisponibilidad q => simp only [paso, getDisponibilidad_store]; exact hs
  have run_ok : ∀ (llamadas : List Llamada) (s : Store), P s → P (ejecutar s llamadas) := by
    intro llamadas
    induction llamadas with
    | nil => intro s hs; exact hs
    | cons c t ih => intro s hs; exact ih (paso s c) (paso_ok s c hs)
  rintro s ⟨llamadas, rfl⟩
  exact run_ok llamadas _ h0


/-! ## Invariants of the reachable stores -/

theorem slotKey_cancelar (r : Reserva) : slotKey (cancelar r) = slotKey r := rfl

theorem ocupada_iff_slotKey (s : Store) (a f h : Option String) (mesaId : String) :
    Ocupada s a f h mesaId ↔ (a, f, h, mesaId) ∈ s.reservas.map slotKey := by
  simp only [Ocupada, List.mem_map, slotKey, Prod.mk.injEq]

theorem inv_slots (s : Store) (h : Alcanzable s) : (s.reservas.map slotKey).Nodup := by
  refine alcanzable_induccion (fun s => (s.reservas.map slotKey).Nodup) ?_ ?_ ?_ s h
  · simp [Store.inicial]
  · intro s a l mesa n hs _ _ ho
    rw [ocupada_iff_slotKey] at ho
    simp only [List.map_append, List.map_cons, List.map_nil]
    rw [List.nodup_append]
    refine ⟨hs, List.nodup_singleton _, ?_⟩
    intro k hk hk2
    rw [List.mem_singleton] at hk2
    subst hk2
    exact ho hk
  · intro s idx hs
    simp only
    rw [map_modify_of_eq slotKey cancelar slotKey_cancelar]
    exact hs

theorem inv_primera_mesa (s : Store) (h : Alcanzable s) :
    ∀ r ∈ s.reservas, ∃ l mesa, mesasPorSucursal (propertyKey r.sucursalId) = .mesas l
      ∧ l.find? (fun m => alcanza m.capacidad (some r.personas)) = some mesa
      ∧ mesa.id = r.mesaId := by
  refine alcanzable_induccion (fun s => ∀ r ∈ s.reservas, ∃ l mesa,
    mesasPorSucursal (propertyKey r.sucursalId) = .mesas l
      ∧ l.find? (fun m => alcanza m.capacidad (some r.personas)) = some mesa
      ∧ mesa.id = r.mesaId) ?_ ?_ ?_ s h
  · simp [Store.inicial]
  · intro s a l mesa n hs hl hf _ r hr
    simp only [List.mem_append, List.mem_singleton] at hr
    rcases hr with hr | rfl
    · exact hs r hr
    · exact ⟨l, mesa, hl, hf, rfl⟩
  · intro s idx hs r hr
    obtain ⟨r0, hr0, rfl | rfl⟩ := mem_modify_cancelar hr
    · exact hs r hr0
    · exact hs r0 hr0

/-! ## The availability query on a branch of the catalog -/

theorem truthyStr_conocida {v : Option String} {l : List Mesa}
    (h : mesasPorSucursal (propertyKey v) = .mesas l) : truthyStr v = true := by
  cases v with
  | none => exfalso; revert h; simp [propertyKey, mesasPorSucursal, clavesHeredadas]
  | some k =>
    rcases mesas_conocida h with ⟨hk, -⟩ | ⟨hk, -⟩ <;>
      simp only [propertyKey] at hk <;> subst hk <;> decide

theorem contains_ocupadas_iff (s : Store) (a f h : Option String) (mesaId : String) :
    ((s.reservas.filter (fun r => r.sucursalId == a && r.fecha == f && r.hora == h)).map
      (·.mesaId)).contains mesaId = true ↔ Ocupada s a f h mesaId := by
  simp [Ocupada, and_assoc]

theorem getDisponibilidad_conocida (s : Store) (q : DisponibilidadQuery) (l : List Mesa)
    (hl : mesasPorSucursal (propertyKey q.sucursal) = .mesas l) :
    getDisponibilidad s q =
      (s, .ok { status := 200,
                body := .disponibilidad (propertyKey q.sucursal)
                  (oPorDefecto q.fecha "(no especificada)")
                  (oPorDefecto q.hora "(no especificada)")
                  (parseInt10 (oPorDefecto q.personas "1"))
                  (l.filter (fun m =>
                    decide (¬ Ocupada s q.sucursal q.fecha q.hora m.id)
                      && alcanzaNumero m.capacidad
                          (parseInt10 (oPorDefecto q.personas "1")))) }) := by
  have ht := truthyStr_conocida hl
  have hfil : ∀ m : Mesa,
      (!((s.reservas.filter (fun r => r.sucursalId == q.sucursal && r.fecha == q.fecha
          && r.hora == q.hora)).map (·.mesaId)).contains m.id)
        = decide (¬ Ocupada s q.sucursal q.fecha q.hora m.id) := by
    intro m
    by_cases ho : Ocupada s q.sucursal q.fecha q.hora m.id
    · rw [(contains_ocupadas_iff s q.sucursal q.fecha q.hora m.id).2 ho]
      simp only [ho, not_true_eq_false, decide_False, Bool.not_true]
    · have : ((s.reservas.filter (fun r => r.sucursalId == q.sucursal && r.fecha == q.fecha
          && r.hora == q.hora)).map (·.mesaId)).contains m.id = false := by
        rw [Bool.eq_false_iff]; intro hcon; exact ho ((contains_ocupadas_iff _ _ _ _ _).1 hcon)
      rw [this]
      simp only [ho, not_false_eq_true, decide_True, Bool.not_false]
  simp only [getDisponibilidad, ht, hl, Propiedad.truthy, Propiedad.oVacio, hfil]
  rfl

/-! ## The create handlers: the complete case split, with the response -/

theorem CrearReserva_full (s : Store) (a : CrearReservaRequest) :
    CrearReserva s a = (s, .error .typeError)
    ∨ CrearReserva s a = (s, .ok { reservaId := "", estado := "SIN_MESA" })
    ∨ CrearReserva s a = (s, .ok { reservaId := "", estado := "OCUPADA" })
    ∨ ∃ l mesa n, mesasPorSucursal (propertyKey a.sucursalId) = .mesas l
        ∧ l.find? (fun m => alcanza m.capacidad (some n)) = some mesa
        ∧ a.personas = some n
        ∧ ¬ Ocupada s a.sucursalId a.fecha a.hora mesa.id
        ∧ CrearReserva s a =
            ({ reservas := s.reservas ++ [nuevaReserva s.nextId a n mesa],
               nextId := s.nextId + 1 },
             .ok { reservaId := toString s.nextId, estado := "CREADA" }) := by
  cases hl : (mesasPorSucursal (propertyKey a.sucursalId)).oVacio with
  | none => exact Or.inl (CrearReserva_heredada s a hl)
  | some l =>
    cases hf : l.find? (fun m => alcanza m.capacidad a.personas) with
    | none => exact Or.inr (Or.inl (CrearReserva_sinMesa s a l hl hf))
    | some mesa =>
      by_cases ho : Ocupada s a.sucursalId a.fecha a.hora mesa.id
      · exact Or.inr (Or.inr (Or.inl (CrearReserva_ocupada s a l mesa hl hf ho)))
      · obtain ⟨n, hn, -⟩ := find_alcanza_personas hf
        exact Or.inr (Or.inr (Or.inr ⟨l, mesa, n, oVacio_find_mesas hl hf,
          by rw [← hn]; exact hf, hn, ho, CrearReserva_creada s a l mesa n hl hf hn ho⟩))

theorem postReservas_full (s : Store) (b : CrearReservaRequest) :
    (b.completa = false ∧ postReservas s b =
        (s, .ok { status := 400,
                  body := .error "Faltan campos: clienteId, sucursalId, fecha, hora, personas" }))
    ∨ postReservas s b = (s, .error .typeError)
    ∨ postReservas s b =
        (s, .ok { status := 409, body := .error "No hay mesa con capacidad suficiente" })
    ∨ postReservas s b = (s, .ok { status := 409, body := .error "Mesa ocupada en ese horario" })
    ∨ ∃ l mesa n, mesasPorSucursal (propertyKey b.sucursalId) = .mesas l
        ∧ l.find? (fun m => alcanza m.capacidad (some n)) = some mesa
        ∧ b.personas = some n
        ∧ ¬ Ocupada s b.sucursalId b.fecha b.hora mesa.id
        ∧ b.completa = true
        ∧ postReservas s b =
            ({ reservas := s.reservas ++ [nuevaReserva s.nextId b n mesa],
               nextId := s.nextId + 1 },
             .ok { status := 201, body := .creada (toString s.nextId) "CREADA" }) := by
  cases hc : b.completa with
  | false => exact Or.inl ⟨rfl, postReservas_incompleta s b hc⟩
  | true =>
    cases hl : (mesasPorSucursal (propertyKey b.sucursalId)).oVacio with
    | none => exact Or.inr (Or.inl (postReservas_heredada s b hc hl))
    | some l =>
      cases hf : l.find? (fun m => alcanza m.capacidad b.personas) with
      | none => exact Or.inr (Or.inr (Or.inl (postReservas_sinMesa s b l hc hl hf)))
      | some mesa =>
        by_cases ho : Ocupada s b.sucursalId b.fecha b.hora mesa.id
        · exact Or.inr (Or.inr (Or.inr (Or.inl (postReservas_ocupada s b l mesa hc hl hf ho))))
        · obtain ⟨n, hn, -⟩ := find_alcanza_personas hf
          exact Or.inr (Or.inr (Or.inr (Or.inr ⟨l, mesa, n, oVacio_find_mesas hl hf,
            by rw [← hn]; exact hf, hn, ho, rfl,
            postReservas_creada s b l mesa n hc hl hf hn ho⟩)))

theorem CrearReserva_exito (s : Store) (a : CrearReservaRequest) (resp : CrearReservaResponse)
    (h : (CrearReserva s a).2 = .ok resp) (hest : resp.estado = "CREADA") :
    ∃ l mesa n, mesasPorSucursal (propertyKey a.sucursalId) = .mesas l
      ∧ l.find? (fun m => alcanza m.capacidad (some n)) = some mesa
      ∧ a.personas = some n
      ∧ ¬ Ocupada s a.sucursalId a.fecha a.hora mesa.id
      ∧ CrearReserva s a =
          ({ reservas := s.reservas ++ [nuevaReserva s.nextId a n mesa],
             nextId := s.nextId + 1 },
           .ok { reservaId := toString s.nextId, estado := "CREADA" }) := by
  rcases CrearReserva_full s a with h1 | h1 | h1 | h1
  · rw [h1] at h; cases h
  · rw [h1] at h; cases h; simp at hest
  · rw [h1] at h; cases h; simp at hest
  · exact h1

theorem postReservas_exito (s : Store) (b : CrearReservaRequest) (resp : RestResponse)
    (h : (postReservas s b).2 = .ok resp) (hst : resp.status = 201) :
    ∃ l mesa n, mesasPorSucursal (propertyKey b.sucursalId) = .mesas l
      ∧ l.find? (fun m => alcanza m.capacidad (some n)) = some mesa
      ∧ b.personas = some n
      ∧ ¬ Ocupada s b.sucursalId b.fecha b.hora mesa.id
      ∧ b.completa = true
      ∧ postReservas s b =
          ({ reservas := s.reservas ++ [nuevaReserva s.nextId b n mesa],
             nextId := s.nextId + 1 },
           .ok { status := 201, body := .creada (toString s.nextId) "CREADA" }) := by
  rcases postReservas_full s b with ⟨-, h1⟩ | h1 | h1 | h1 | h1
  · rw [h1] at h; cases h; simp at hst
  · rw [h1] at h; cases h
  · rw [h1] at h; cases h; simp at hst
  · rw [h1] at h; cases h; simp at hst
  · exact h1

/-! ## Decimal strings of natural numbers -/

theorem digitChar_valor : ∀ k, k < 10 → (Nat.digitChar k).toNat - 48 = k := by
  decide

theorem foldl_toDigitsCore (fuel : Nat) :
    ∀ (n : Nat) (ds : List Char), n < fuel →
      (Nat.toDigitsCore 10 fuel n ds).foldl (fun acc c => 10 * acc + (c.toNat - 48)) 0
        = ds.foldl (fun acc c => 10 * acc + (c.toNat - 48)) n := by
  induction fuel with
  | zero => intro n ds h; omega
  | succ f ih =>
    intro n ds h
    have hd := digitChar_valor (n % 10) (Nat.mod_lt _ (by decide))
    unfold Nat.toDigitsCore
    by_cases h0 : n / 10 = 0
    · simp only [h0, if_true, List.foldl_cons, hd]
      congr 1
      omega
    · simp only [h0, if_false]
      rw [ih (n / 10) _ (by omega)]
      simp only [List.foldl_cons, hd]
      congr 1
      omega

theorem valorDigitos_toString (n : Nat) : valorDigitos (toString n).toList = n := by
  show valorDigitos (Nat.toDigits 10 n) = n
  unfold valorDigitos Nat.toDigits
  rw [foldl_toDigitsCore (n + 1) n [] (by omega)]
  rfl

theorem toString_nat_inj {a b : Nat} (h : toString a = toString b) : a = b := by
  have := congrArg (fun t => valorDigitos t.toList) h
  simpa only [valorDigitos_toString] using this

/-! ## Steps, and the ids of the reachable stores -/

theorem paso_cases (s : Store) (c : Llamada) :
    paso s c = s
    ∨ (∃ a l mesa n, mesasPorSucursal (propertyKey a.sucursalId) = .mesas l
        ∧ l.find? (fun m => alcanza m.capacidad (some n)) = some mesa
        ∧ ¬ Ocupada s a.sucursalId a.fecha a.hora mesa.id
        ∧ (c = .postReservas a ∨ c = .crearReservaSoap a)
        ∧ paso s c = { reservas := s.reservas ++ [nuevaReserva s.nextId a n mesa],
                       nextId := s.nextId + 1 })
    ∨ (∃ id idx, c = .deleteReserva id ∧ (∃ r ∈ s.reservas, r.id = id)
        ∧ paso s c = { reservas := s.reservas.modify cancelar idx, nextId := s.nextId }) := by
  cases c with
  | postReservas b =>
    rcases postReservas_cases s b with h | ⟨l, mesa, n, hl, hf, -, ho, h⟩
    · exact Or.inl h
    · exact Or.inr (Or.inl ⟨b, l, mesa, n, hl, hf, ho, Or.inl rfl, h⟩)
  | crearReservaSoap a =>
    rcases CrearReserva_cases s a with h | ⟨l, mesa, n, hl, hf, -, ho, h⟩
    · exact Or.inl h
    · exact Or.inr (Or.inl ⟨a, l, mesa, n, hl, hf, ho, Or.inr rfl, h⟩)
  | getReserva id => exact Or.inl (getReserva_store s id)
  | deleteReserva id =>
    by_cases h : ∃ r ∈ s.reservas, r.id = id
    · obtain ⟨idx, -, hd⟩ := deleteReserva_encontrada s id h
      exact Or.inr (Or.inr ⟨id, idx, rfl, h, by simp only [paso, hd]⟩)
    · have hd := deleteReserva_noEncontrada s id (by
        intro r hr hid; exact h ⟨r, hr, hid⟩)
      exact Or.inl (by simp only [paso, hd])
  | getDisponibilidad q => exact Or.inl (getDisponibilidad_store s q)

theorem alcanzable_paso (s : Store) (h : Alcanzable s) (c : Llamada) :
    Alcanzable (paso s c) := by
  obtain ⟨llamadas, rfl⟩ := h
  exact ⟨llamadas ++ [c], by simp [ejecutar, List.foldl_append]⟩

theorem alcanzable_ejecutar (s : Store) (h : Alcanzable s) (llamadas : List Llamada) :
    Alcanzable (ejecutar s llamadas) := by
  obtain ⟨previas, rfl⟩ := h
  exact ⟨previas ++ llamadas, by simp [ejecutar, List.foldl_append]⟩

theorem getElem_modify_cancelar {l : List Reserva} {idx i : Nat} {r : Reserva}
    (h : (l.modify cancelar idx)[i]? = some r) :
    ∃ r0, l[i]? = some r0 ∧ (r = r0 ∨ r = cancelar r0) := by
  rw [List.getElem?_modify] at h
  cases hl : l[i]? with
  | none => rw [hl] at h; simp at h
  | some r0 =>
    rw [hl] at h
    simp only [Option.map_eq_map, Option.map_some', Option.some.injEq] at h
    refine ⟨r0, rfl, ?_⟩
    split_ifs at h
    · exact Or.inr h.symm
    · exact Or.inl h.symm

theorem inv_ids (s : Store) (h : Alcanzable s) :
    s.nextId = s.reservas.length + 1
      ∧ ∀ i r, s.reservas[i]? = some r → r.id = toString (i + 1) := by
  refine alcanzable_induccion (fun s => s.nextId = s.reservas.length + 1
      ∧ ∀ i r, s.reservas[i]? = some r → r.id = toString (i + 1)) ?_ ?_ ?_ s h
  · simp [Store.inicial]
  · rintro s a l mesa n ⟨hn, hs⟩ _ _ _
    refine ⟨by simp [hn], ?_⟩
    intro i r hr
    simp only at hr
    by_cases hi : i < s.reservas.length
    · rw [List.getElem?_append_left hi] at hr
      exact hs i r hr
    · rw [List.getElem?_append_right (by omega)] at hr
      have h0 : i - s.reservas.length = 0 := by
        by_contra hne
        rw [List.getElem?_eq_none (by simp; omega)] at hr
        cases hr
      rw [h0] at hr
      simp only [List.getElem?_cons_zero, Option.some.injEq] at hr
      subst hr
      have : i = s.reservas.length := by omega
      simp only [nuevaReserva, hn, this]
  · rintro s idx ⟨hn, hs⟩
    refine ⟨by simp [hn], ?_⟩
    intro i r hr
    obtain ⟨r0, hr0, rfl | rfl⟩ := getElem_modify_cancelar hr
    · exact hs i r hr0
    · exact hs i r0 hr0

theorem ids_nodup (s : Store) (h : Alcanzable s) : (s.reservas.map (·.id)).Nodup := by
  obtain ⟨-, hs⟩ := inv_ids s h
  unfold List.Nodup
  rw [List.pairwise_iff_getElem]
  intro i j hi hj hij heq
  have hi2 : i < s.reservas.length := by simpa using hi
  have hj2 : j < s.reservas.length := by simpa using hj
  have e1 := hs i _ (List.getElem?_eq_getElem hi2)
  have e2 := hs j _ (List.getElem?_eq_getElem hj2)
  simp only [List.getElem_map, e1, e2] at heq
  have := toString_nat_inj heq
  omega

theorem ids_paso (s : Store) (c : Llamada) (i : Nat) (r : Reserva)
    (hr : s.reservas[i]? = some r) :
    ∃ r2, (paso s c).reservas[i]? = some r2 ∧ r2.id = r.id
      ∧ (r.estado = "CANCELADA" → r2 = r) := by
  have hi : i < s.reservas.length := (List.getElem?_eq_some_iff.1 hr).1
  rcases paso_cases s c with h | ⟨a, l, mesa, n, -, -, -, -, h⟩ | ⟨id, idx, -, -, h⟩
  · rw [h]; exact ⟨r, hr, rfl, fun _ => rfl⟩
  · rw [h]
    exact ⟨r, by simp only; rw [List.getElem?_append_left hi]; exact hr, rfl, fun _ => rfl⟩
  · rw [h]
    simp only [List.getElem?_modify, hr, Option.map_eq_map, Option.map_some']
    by_cases hx : idx = i
    · refine ⟨cancelar r, by simp [hx], rfl, ?_⟩
      intro hc
      cases r
      simp only [cancelar] at hc ⊢
      rw [hc]
    · exact ⟨r, by simp [hx], rfl, fun _ => rfl⟩

theorem nextId_paso (s : Store) (c : Llamada) : s.nextId ≤ (paso s c).nextId := by
  rcases paso_cases s c with h | ⟨a, l, mesa, n, -, -, -, -, h⟩ | ⟨id, idx, -, -, h⟩ <;>
    rw [h]
  simp

theorem find_modify_findIdx {α : Type} (p : α → Bool) (g : α → α)
    (hpg : ∀ a, p (g a) = p a) :
    ∀ (l : List α) (idx : Nat), l.findIdx? p = some idx →
      (l.modify g idx).find? p = (l.find? p).map g := by
  intro l
  induction l with
  | nil => intro idx h; simp at h
  | cons a t ih =>
    intro idx h
    rw [List.findIdx?_cons] at h
    by_cases hp : p a = true
    · simp only [hp, if_true, Option.some.injEq] at h
      subst h
      simp [List.modify_zero_cons, List.find?_cons, hpg, hp]
    · have hp2 : p a = false := by simpa using hp
      rw [if_neg hp, List.findIdx?_succ] at h
      cases hk : t.findIdx? p with
      | none => rw [hk] at h; simp at h
      | some k =>
        rw [hk] at h
        simp only [Option.map_some', Option.some.injEq] at h
        subst h
        simp only [List.modify_succ_cons, List.find?_cons, hp2]
        exact ih k hk

theorem id_fresco (s : Store) (h : Alcanzable s) :
    ∀ r ∈ s.reservas, r.id ≠ toString s.nextId := by
  obtain ⟨hn, hs⟩ := inv_ids s h
  intro r hr heq
  obtain ⟨i, hi, rfl⟩ := List.mem_iff_getElem.1 hr
  rw [hs i _ (List.getElem?_eq_getElem hi), hn] at heq
  have := toString_nat_inj heq
  omega

theorem getReserva_nueva (s : Store) (h : Alcanzable s) (r : Reserva)
    (hid : r.id = toString s.nextId) (n : Nat) :
    getReserva { reservas := s.reservas ++ [r], nextId := n } (toString s.nextId)
      = ({ reservas := s.reservas ++ [r], nextId := n },
         .ok { status := 200, body := .reserva r }) := by
  have hnone : s.reservas.find? (fun x => x.id == toString s.nextId) = none := by
    rw [List.find?_eq_none]
    intro x hx
    simpa using id_fresco s h x hx
  simp only [getReserva, List.find?_append, hnone, Option.none_or, List.find?_cons, hid,
    beq_self_eq_true]

theorem inv_estado (s : Store) (h : Alcanzable s) :
    ∀ r ∈ s.reservas, r.estado = "CREADA" ∨ r.estado = "CANCELADA" := by
  refine alcanzable_induccion (fun s => ∀ r ∈ s.reservas,
    r.estado = "CREADA" ∨ r.estado = "CANCELADA") ?_ ?_ ?_ s h
  · simp [Store.inicial]
  · intro s a l mesa n hs _ _ _ r hr
    simp only [List.mem_append, List.mem_singleton] at hr
    rcases hr with hr | rfl
    · exact hs r hr
    · exact Or.inl rfl
  · intro s idx hs r hr
    obtain ⟨r0, hr0, rfl | rfl⟩ := mem_modify_cancelar hr
    · exact hs r hr0
    · exact Or.inr rfl

theorem cancelada_persiste (llamadas : List Llamada) :
    ∀ (s : Store) (i : Nat) (r : Reserva), s.reservas[i]? = some r →
      r.estado = "CANCELADA" → (ejecutar s llamadas).reservas[i]? = some r := by
  induction llamadas with
  | nil => intro s i r hr _; exact hr
  | cons c t ih =>
    intro s i r hr hc
    obtain ⟨r2, h2, -, heq⟩ := ids_paso s c i r hr
    rw [heq hc] at h2
    exact ih (paso s c) i r h2 hc

theorem getDisponibilidad_invalida_iff (s : Store) (q : DisponibilidadQuery) :
    (getDisponibilidad s q).2
        = .ok { status := 400,
                body := .error "Parámetro 'sucursal' inválido o faltante (e.g. S01)" }
      ↔ (truthyStr q.sucursal = false
          ∨ mesasPorSucursal (propertyKey q.sucursal) = .indefinida) := by
  unfold getDisponibilidad
  cases ht : truthyStr q.sucursal with
  | false => simp
  | true =>
    cases hp : mesasPorSucursal (propertyKey q.sucursal) with
    | indefinida => simp [Propiedad.truthy]
    | mesas l => simp [Propiedad.truthy, Propiedad.oVacio]
    | heredada => simp [Propiedad.truthy, Propiedad.oVacio]

theorem disponibilidad_omitida (s : Store) (k : String) (l : List Mesa)
    (fecha hora personas : Option String) (n : Int)
    (hl : mesasPorSucursal k = .mesas l)
    (hn : parseInt10 (oPorDefecto personas "1") = .entero n)
    (hom : fecha = none ∨ hora = none)
    (hs : ∀ r ∈ s.reservas, r.fecha ≠ none ∧ r.hora ≠ none) :
    getDisponibilidad s ⟨some k, fecha, hora, personas⟩
      = (s, .ok { status := 200,
                  body := .disponibilidad k (oPorDefecto fecha "(no especificada)")
                    (oPorDefecto hora "(no especificada)") (.entero n)
                    (l.filter (fun m => decide (n ≤ m.capacidad))) }) := by
  rw [getDisponibilidad_conocida s ⟨some k, fecha, hora, personas⟩ l hl]
  simp only [hn, propertyKey]
  have hfil : l.filter (fun m => decide (¬ Ocupada s (some k) fecha hora m.id)
        && alcanzaNumero m.capacidad (.entero n))
      = l.filter (fun m => decide (n ≤ m.capacidad)) := by
    apply List.filter_congr
    intro m _
    have ho : ¬ Ocupada s (some k) fecha hora m.id := by
      rintro ⟨r, hr, -, hf, hh, -⟩
      rcases hom with rfl | rfl
      · exact (hs r hr).1 hf
      · exact (hs r hr).2 hh
    by_cases hcap : n ≤ m.capacidad <;> simp [ho, hcap, alcanzaNumero]
  rw [hfil]

/-- Agreement of the two create paths away from the inherited names: for every
store and every request with all five fields truthy, `POST /reservas` and the
SOAP operation leave the same store and answer 201 with an id and CREADA against
the same id and CREADA, 409 with the no-capacity message against `SIN_MESA`, or
409 with the occupied message against `OCUPADA`; the only other outcome is that
`sucursalId` is a member name the catalog object inherits and both throw. -/
theorem create_paths_agree (s : Store) (b : CrearReservaRequest) (hc : b.completa = true) :
    (postReservas s b).1 = (CrearReserva s b).1
    ∧ ((∃ id : String,
          (postReservas s b).2 = .ok { status := 201, body := .creada id "CREADA" }
          ∧ (CrearReserva s b).2 = .ok { reservaId := id, estado := "CREADA" })
      ∨ ((postReservas s b).2
            = .ok { status := 409, body := .error "No hay mesa con capacidad suficiente" }
          ∧ (CrearReserva s b).2 = .ok { reservaId := "", estado := "SIN_MESA" })
      ∨ ((postReservas s b).2
            = .ok { status := 409, body := .error "Mesa ocupada en ese horario" }
          ∧ (CrearReserva s b).2 = .ok { reservaId := "", estado := "OCUPADA" })
      ∨ (mesasPorSucursal (propertyKey b.sucursalId) = .heredada
          ∧ (postReservas s b).2 = .error .typeError
          ∧ (CrearReserva s b).2 = .error .typeError)) := by
  cases hl : (mesasPorSucursal (propertyKey b.sucursalId)).oVacio with
  | none =>
    rw [postReservas_heredada s b hc hl, CrearReserva_heredada s b hl]
    refine ⟨rfl, Or.inr (Or.inr (Or.inr ⟨?_, rfl, rfl⟩))⟩
    cases hp : mesasPorSucursal (propertyKey b.sucursalId) with
    | indefinida => rw [hp] at hl; simp [Propiedad.oVacio] at hl
    | mesas l => rw [hp] at hl; simp [Propiedad.oVacio] at hl
    | heredada => rfl
  | some l =>
    cases hf : l.find? (fun m => alcanza m.capacidad b.personas) with
    | none =>
      rw [postReservas_sinMesa s b l hc hl hf, CrearReserva_sinMesa s b l hl hf]
      exact ⟨rfl, Or.inr (Or.inl ⟨rfl, rfl⟩)⟩
    | some mesa =>
      by_cases ho : Ocupada s b.sucursalId b.fecha b.hora mesa.id
      · rw [postReservas_ocupada s b l mesa hc hl hf ho,
          CrearReserva_ocupada s b l mesa hl hf ho]
        exact ⟨rfl, Or.inr (Or.inr (Or.inl ⟨rfl, rfl⟩))⟩
      · obtain ⟨n, hn, -⟩ := find_alcanza_personas hf
        rw [postReservas_creada s b l mesa n hc hl hf hn ho,
          CrearReserva_creada s b l mesa n hl hf hn ho]
        exact ⟨rfl, Or.inl ⟨toString s.nextId, rfl, rfl⟩⟩

/-! ## The claims -/

/-- C1. No double-booking: in every store reachable from the start-up store by
REST creates, SOAP creates, cancellations, lookups and availability queries, two
reservations at different positions that both have `estado` CREADA never agree
on all of `sucursalId`, `fecha`, `hora` and `mesaId`. -/
theorem no_double_booking (s : Store) (h : Alcanzable s) (i j : Nat) (r1 r2 : Reserva)
    (hij : i ≠ j) (h1 : s.reservas[i]? = some r1) (h2 : s.reservas[j]? = some r2)
    (_hc1 : r1.estado = "CREADA") (_hc2 : r2.estado = "CREADA") :
    ¬ (r1.sucursalId = r2.sucursalId ∧ r1.fecha = r2.fecha ∧ r1.hora = r2.hora
        ∧ r1.mesaId = r2.mesaId) := by
  rintro ⟨ha, hf, hh, hm⟩
  have hnd := inv_slots s h
  obtain ⟨hi, e1⟩ := List.getElem?_eq_some_iff.1 h1
  obtain ⟨hj, e2⟩ := List.getElem?_eq_some_iff.1 h2
  have hi2 : i < (s.reservas.map slotKey).length := by simpa using hi
  have hj2 : j < (s.reservas.map slotKey).length := by simpa using hj
  have hk : (s.reservas.map slotKey)[i] = (s.reservas.map slotKey)[j] := by
    simp only [List.getElem_map, e1, e2, slotKey, ha, hf, hh, hm]
  exact hij (hnd.getElem_inj_iff.1 hk)

/-- Witness of C1: the two active reservations of `storeDos`. -/
theorem no_double_booking_witness :
    Alcanzable storeDos ∧ (0 : Nat) ≠ 1
    ∧ storeDos.reservas[0]? = some (nuevaReserva 1 reqA 2 { id := "M1", capacidad := 2 })
    ∧ storeDos.reservas[1]? = some (nuevaReserva 2 reqA20 2 { id := "M1", capacidad := 2 })
    ∧ ¬ ((nuevaReserva 1 reqA 2 { id := "M1", capacidad := 2 }).sucursalId
          = (nuevaReserva 2 reqA20 2 { id := "M1", capacidad := 2 }).sucursalId
        ∧ (nuevaReserva 1 reqA 2 { id := "M1", capacidad := 2 }).fecha
          = (nuevaReserva 2 reqA20 2 { id := "M1", capacidad := 2 }).fecha
        ∧ (nuevaReserva 1 reqA 2 { id := "M1", capacidad := 2 }).hora
          = (nuevaReserva 2 reqA20 2 { id := "M1", capacidad := 2 }).hora
        ∧ (nuevaReserva 1 reqA 2 { id := "M1", capacidad := 2 }).mesaId
          = (nuevaReserva 2 reqA20 2 { id := "M1", capacidad := 2 }).mesaId) :=
  ⟨⟨_, rfl⟩, by decide, by decide, by decide,
   no_double_booking storeDos ⟨_, rfl⟩ 0 1 _ _ (by decide) (by decide) (by decide)
     (by decide) (by decide)⟩


/-- C2, counterexample. With M1 of S01 booked at the slot of scenario A, table M2
(capacity 4, free at that slot) is the first table that fits 2 people and is not
occupied; the identical second request is nevertheless rejected by both
front-ends, the store is left as it was and no reservation on M2 exists. -/
theorem first_fit_unoccupied_counterexample :
    Ocupada storeA reqA.sucursalId reqA.fecha reqA.hora "M1"
    ∧ ¬ Ocupada storeA reqA.sucursalId reqA.fecha reqA.hora "M2"
    ∧ postReservas storeA reqA
        = (storeA, .ok { status := 409, body := .error "Mesa ocupada en ese horario" })
    ∧ CrearReserva storeA reqA = (storeA, .ok { reservaId := "", estado := "OCUPADA" })
    ∧ ¬ ∃ r ∈ (postReservas storeA reqA).1.reservas, r.mesaId = "M2" := by
  decide

/-- C2, as amended. For every store and every complete request to a branch of
the catalog, both create paths select the first table in catalog order whose
`capacidad` is at least `personas`, occupied or not: if some reservation (of any
`estado`) holds that table at the requested `(sucursalId, fecha, hora)` the
request is rejected as occupied and the store is unchanged; otherwise the
reservation is appended on that table. -/
theorem first_fit_by_capacity (s : Store) (b : CrearReservaRequest) (l : List Mesa) (n : Int)
    (mesa : Mesa) (hc : b.completa = true)
    (hl : mesasPorSucursal (propertyKey b.sucursalId) = .mesas l)
    (hn : b.personas = some n)
    (hprimera : l.find? (fun m => decide (n ≤ m.capacidad)) = some mesa) :
    (Ocupada s b.sucursalId b.fecha b.hora mesa.id →
      postReservas s b
          = (s, .ok { status := 409, body := .error "Mesa ocupada en ese horario" })
        ∧ CrearReserva s b = (s, .ok { reservaId := "", estado := "OCUPADA" }))
    ∧ (¬ Ocupada s b.sucursalId b.fecha b.hora mesa.id →
      postReservas s b
          = ({ reservas := s.reservas ++ [nuevaReserva s.nextId b n mesa],
               nextId := s.nextId + 1 },
             .ok { status := 201, body := .creada (toString s.nextId) "CREADA" })
        ∧ CrearReserva s b
          = ({ reservas := s.reservas ++ [nuevaReserva s.nextId b n mesa],
               nextId := s.nextId + 1 },
             .ok { reservaId := toString s.nextId, estado := "CREADA" })) := by
  have hl2 : (mesasPorSucursal (propertyKey b.sucursalId)).oVacio = some l := by
    rw [hl]; rfl
  have hf : l.find? (fun m => alcanza m.capacidad b.personas) = some mesa := by
    rw [hn]; exact hprimera
  exact ⟨fun ho => ⟨postReservas_ocupada s b l mesa hc hl2 hf ho,
      CrearReserva_ocupada s b l mesa hl2 hf ho⟩,
    fun ho => ⟨postReservas_creada s b l mesa n hc hl2 hf hn ho,
      CrearReserva_creada s b l mesa n hl2 hf hn ho⟩⟩

/-- Witness of C2 as amended: the second identical request of scenario A. -/
theorem first_fit_by_capacity_witness :
    reqA.completa = true
    ∧ postReservas storeA reqA
        = (storeA, .ok { status := 409, body := .error "Mesa ocupada en ese horario" })
    ∧ CrearReserva storeA reqA = (storeA, .ok { reservaId := "", estado := "OCUPADA" }) :=
  ⟨by decide,
   (first_fit_by_capacity storeA reqA
      [{ id := "M1", capacidad := 2 }, { id := "M2", capacidad := 4 },
       { id := "M3", capacidad := 4 }]
      2 { id := "M1", capacidad := 2 } (by decide) (by decide) (by decide) (by decide)).1
     (by decide)⟩

/-- C3, counterexample. After scenario A and the cancellation of its reservation,
the same request is rejected as occupied and the availability query at that slot
still lists only M2 and M3. -/
theorem cancel_frees_slot_counterexample :
    storeACancelada.reservas
        = [{ nuevaReserva 1 reqA 2 { id := "M1", capacidad := 2 } with estado := "CANCELADA" }]
    ∧ postReservas storeACancelada reqA
        = (storeACancelada,
           .ok { status := 409, body := .error "Mesa ocupada en ese horario" })
    ∧ CrearReserva storeACancelada reqA
        = (storeACancelada, .ok { reservaId := "", estado := "OCUPADA" })
    ∧ (getDisponibilidad storeACancelada queryA).2
        = .ok { status := 200,
                body := .disponibilidad "S01" "2024-01-01" "19:00" (.entero 2)
                  [{ id := "M2", capacidad := 4 }, { id := "M3", capacidad := 4 }] } := by
  decide

/-- C3, as amended. Cancellation does not free the slot. In every reachable
store holding a reservation `r`, after `DELETE /reservas/r.id` a create with the
`sucursalId`, `fecha`, `hora` and `personas` of `r` is rejected as occupied (SOAP
always; REST whenever the request is complete, and REST never changes the
store), and the availability query at that slot answers with a list that does
not contain the table of `r`. -/
theorem cancel_keeps_slot (s : Store) (h : Alcanzable s) (r : Reserva) (hr : r ∈ s.reservas)
    (cliente personas : Option String) :
    CrearReserva (deleteReserva s r.id).1
        ⟨cliente, r.sucursalId, r.fecha, r.hora, some r.personas⟩
      = ((deleteReserva s r.id).1, .ok { reservaId := "", estado := "OCUPADA" })
    ∧ ((CrearReservaRequest.mk cliente r.sucursalId r.fecha r.hora (some r.personas)).completa
          = true →
        postReservas (deleteReserva s r.id).1
            ⟨cliente, r.sucursalId, r.fecha, r.hora, some r.personas⟩
          = ((deleteReserva s r.id).1,
             .ok { status := 409, body := .error "Mesa ocupada en ese horario" }))
    ∧ (postReservas (deleteReserva s r.id).1
          ⟨cliente, r.sucursalId, r.fecha, r.hora, some r.personas⟩).1
        = (deleteReserva s r.id).1
    ∧ ∃ sucursal fecha hora solicitadas disponibles,
        (getDisponibilidad (deleteReserva s r.id).1
            ⟨r.sucursalId, r.fecha, r.hora, personas⟩).2
          = .ok { status := 200,
                  body := .disponibilidad sucursal fecha hora solicitadas disponibles }
        ∧ ∀ m ∈ disponibles, m.id ≠ r.mesaId := by
  obtain ⟨l, mesa, hl, hf, hm⟩ := inv_primera_mesa s h r hr
  obtain ⟨idx, -, hd⟩ := deleteReserva_encontrada s r.id ⟨r, hr, rfl⟩
  have hoc : Ocupada (deleteReserva s r.id).1 r.sucursalId r.fecha r.hora mesa.id := by
    rw [ocupada_iff_slotKey, hd]
    simp only
    rw [map_modify_of_eq slotKey cancelar slotKey_cancelar, hm]
    exact List.mem_map.2 ⟨r, hr, rfl⟩
  have hl2 : (mesasPorSucursal (propertyKey r.sucursalId)).oVacio = some l := by
    rw [hl]; rfl
  refine ⟨CrearReserva_ocupada _ ⟨cliente, r.sucursalId, r.fecha, r.hora, some r.personas⟩
      l mesa hl2 hf hoc, fun hc => postReservas_ocupada _
      ⟨cliente, r.sucursalId, r.fecha, r.hora, some r.personas⟩ l mesa hc hl2 hf hoc, ?_, ?_⟩
  · cases hc : (CrearReservaRequest.mk cliente r.sucursalId r.fecha r.hora
        (some r.personas)).completa with
    | false => rw [postReservas_incompleta _ _ hc]
    | true =>
      rw [postReservas_ocupada _ ⟨cliente, r.sucursalId, r.fecha, r.hora, some r.personas⟩
        l mesa hc hl2 hf hoc]
  · rw [getDisponibilidad_conocida _ ⟨r.sucursalId, r.fecha, r.hora, personas⟩ l hl]
    refine ⟨_, _, _, _, _, rfl, ?_⟩
    intro m hmem hid
    rw [List.mem_filter] at hmem
    have := hmem.2
    simp only [Bool.and_eq_true, decide_eq_true_eq] at this
    exact this.1 (by rw [hid, ← hm]; exact hoc)

/-- Witness of C3 as amended: scenario A, cancelled. -/
theorem cancel_keeps_slot_witness :
    Alcanzable storeA
    ∧ nuevaReserva 1 reqA 2 { id := "M1", capacidad := 2 } ∈ storeA.reservas
    ∧ CrearReserva (deleteReserva storeA "1").1 reqA
        = ((deleteReserva storeA "1").1, .ok { reservaId := "", estado := "OCUPADA" }) :=
  ⟨⟨_, rfl⟩, by decide,
   (cancel_keeps_slot storeA ⟨_, rfl⟩ (nuevaReserva 1 reqA 2 { id := "M1", capacidad := 2 })
      (by decide) (some "C1") (some "2")).1⟩


/-- C4, counterexample. At the slot of scenario A only M1 is booked; M2 and M3
both seat 2 people and are free, so not every sufficiently large table is taken
by an active reservation, and yet the request for 2 people gets the
slot-conflict outcome on both front-ends. -/
theorem slot_conflict_all_occupied_counterexample :
    (postReservas storeA reqA).2
        = .ok { status := 409, body := .error "Mesa ocupada en ese horario" }
    ∧ (CrearReserva storeA reqA).2 = .ok { reservaId := "", estado := "OCUPADA" }
    ∧ mesasPorSucursal "S01"
        = .mesas [{ id := "M1", capacidad := 2 }, { id := "M2", capacidad := 4 },
                  { id := "M3", capacidad := 4 }]
    ∧ ¬ ∀ m ∈ [({ id := "M1", capacidad := 2 } : Mesa), { id := "M2", capacidad := 4 },
              { id := "M3", capacidad := 4 }],
        2 ≤ m.capacidad →
          ∃ r ∈ storeA.reservas, r.estado = "CREADA" ∧ r.sucursalId = reqA.sucursalId
            ∧ r.fecha = reqA.fecha ∧ r.hora = reqA.hora ∧ r.mesaId = m.id := by
  decide

/-- C4, as amended. For every store and every complete request to a branch of
the catalog, each create path answers with its slot-conflict outcome exactly
when some table of the branch has `capacidad` at least `personas` and the first
such table in catalog order is held, at the requested `(sucursalId, fecha,
hora)`, by a reservation of any `estado`. -/
theorem slot_conflict_iff (s : Store) (b : CrearReservaRequest) (l : List Mesa) (n : Int)
    (hc : b.completa = true)
    (hl : mesasPorSucursal (propertyKey b.sucursalId) = .mesas l)
    (hn : b.personas = some n) :
    ((postReservas s b).2
        = .ok { status := 409, body := .error "Mesa ocupada en ese horario" }
      ↔ ∃ mesa, l.find? (fun m => decide (n ≤ m.capacidad)) = some mesa
          ∧ Ocupada s b.sucursalId b.fecha b.hora mesa.id)
    ∧ ((CrearReserva s b).2 = .ok { reservaId := "", estado := "OCUPADA" }
      ↔ ∃ mesa, l.find? (fun m => decide (n ≤ m.capacidad)) = some mesa
          ∧ Ocupada s b.sucursalId b.fecha b.hora mesa.id) := by
  have hl2 : (mesasPorSucursal (propertyKey b.sucursalId)).oVacio = some l := by
    rw [hl]; rfl
  have hfe : l.find? (fun m => alcanza m.capacidad b.personas)
      = l.find? (fun m => decide (n ≤ m.capacidad)) := by
    rw [hn]; rfl
  cases hf : l.find? (fun m => decide (n ≤ m.capacidad)) with
  | none =>
    rw [postReservas_sinMesa s b l hc hl2 (hfe.trans hf),
      CrearReserva_sinMesa s b l hl2 (hfe.trans hf)]
    simp
  | some mesa =>
    by_cases ho : Ocupada s b.sucursalId b.fecha b.hora mesa.id
    · rw [postReservas_ocupada s b l mesa hc hl2 (hfe.trans hf) ho,
        CrearReserva_ocupada s b l mesa hl2 (hfe.trans hf) ho]
      simp [ho]
    · rw [postReservas_creada s b l mesa n hc hl2 (hfe.trans hf) hn ho,
        CrearReserva_creada s b l mesa n hl2 (hfe.trans hf) hn ho]
      simp [ho]

/-- Witness of C4 as amended: the conflict for 2 people at S01 arises as soon as
M1 is booked at the slot. -/
theorem slot_conflict_iff_witness :
    reqA.completa = true
    ∧ ((postReservas storeA reqA).2
        = .ok { status := 409, body := .error "Mesa ocupada en ese horario" }
      ↔ ∃ mesa, ([{ id := "M1", capacidad := 2 }, { id := "M2", capacidad := 4 },
            { id := "M3", capacidad := 4 }] : List Mesa).find?
              (fun m => decide ((2 : Int) ≤ m.capacidad)) = some mesa
          ∧ Ocupada storeA reqA.sucursalId reqA.fecha reqA.hora mesa.id) :=
  ⟨by decide,
   (slot_conflict_iff storeA reqA
      [{ id := "M1", capacidad := 2 }, { id := "M2", capacidad := 4 },
       { id := "M3", capacidad := 4 }]
      2 (by decide) (by decide) (by decide)).1⟩

/-- C5, counterexample. In the store of scenario A with its reservation
cancelled, no table of S01 is held by an active (CREADA) reservation, so the
tables with capacity at least 2 that no active reservation holds are M1, M2 and
M3; the query answers M2 and M3 only. -/
theorem disponibilidad_active_only_counterexample :
    (∀ r ∈ storeACancelada.reservas, r.estado ≠ "CREADA")
    ∧ mesasPorSucursal "S01"
        = .mesas [{ id := "M1", capacidad := 2 }, { id := "M2", capacidad := 4 },
                  { id := "M3", capacidad := 4 }]
    ∧ (getDisponibilidad storeACancelada queryA).2
        = .ok { status := 200,
                body := .disponibilidad "S01" "2024-01-01" "19:00" (.entero 2)
                  [{ id := "M2", capacidad := 4 }, { id := "M3", capacidad := 4 }] } := by
  decide

/-- C5, as amended. For every store, every branch of the catalog and every
`fecha`, `hora` and `personas`, `GET /disponibilidad` answers 200 with the
branch, the two echoed fields, the requested number and a list of tables.  When
`personas` (or `1` when it is absent) reads as an integer `n` of magnitude at
most `2 ^ 53`, the requested number is `n` and the list is exactly the tables of
the branch, in catalog order, whose `capacidad` is at least `n` and whose id is
not the `mesaId` of a reservation of any `estado` at that `(sucursalId, fecha,
hora)`.  When it does not read as a number, or reads as a number above `2 ^ 53`,
the list is empty; when it reads as a number below `-2 ^ 53`, the list is the
tables that no reservation holds at that slot. -/
theorem disponibilidad_result (s : Store) (k : String) (l : List Mesa)
    (fecha hora personas : Option String)
    (hl : mesasPorSucursal k = .mesas l) :
    ∃ (solicitadas : Numero) (disponibles : List Mesa),
      getDisponibilidad s ⟨some k, fecha, hora, personas⟩
        = (s, .ok { status := 200,
                    body := .disponibilidad k (oPorDefecto fecha "(no especificada)")
                      (oPorDefecto hora "(no especificada)") solicitadas disponibles })
      ∧ (∀ n : Int, parseInt10 (oPorDefecto personas "1") = .entero n →
          solicitadas = .entero n
          ∧ disponibles = l.filter (fun m =>
              decide (n ≤ m.capacidad ∧ ¬ Ocupada s (some k) fecha hora m.id)))
      ∧ (parseInt10 (oPorDefecto personas "1") = .nan → disponibles = [])
      ∧ (parseInt10 (oPorDefecto personas "1") = .grande false → disponibles = [])
      ∧ (parseInt10 (oPorDefecto personas "1") = .grande true →
          disponibles = l.filter (fun m => decide (¬ Ocupada s (some k) fecha hora m.id))) := by
  refine ⟨_, _, getDisponibilidad_conocida s ⟨some k, fecha, hora, personas⟩ l hl, ?_, ?_, ?_, ?_⟩
  · intro n hn
    simp only [hn, true_and]
    apply List.filter_congr
    intro m _
    by_cases ho : Ocupada s (some k) fecha hora m.id <;>
      by_cases hcap : n ≤ m.capacidad <;> simp [ho, hcap, alcanzaNumero]
  · intro hn
    simp only [hn, alcanzaNumero, Bool.and_false, List.filter_false]
  · intro hn
    simp only [hn, alcanzaNumero, Bool.and_false, List.filter_false]
  · intro hn
    simp only [hn, alcanzaNumero, Bool.and_true]

/-- Witness of C5 as amended: after scenario A the query for 2 people at that
slot answers M2 and M3. -/
theorem disponibilidad_result_witness :
    mesasPorSucursal "S01"
        = .mesas [{ id := "M1", capacidad := 2 }, { id := "M2", capacidad := 4 },
                  { id := "M3", capacidad := 4 }]
    ∧ parseInt10 (oPorDefecto queryA.personas "1") = .entero 2
    ∧ getDisponibilidad storeA queryA
      = (storeA, .ok { status := 200,
                       body := .disponibilidad "S01" "2024-01-01" "19:00" (.entero 2)
                         [{ id := "M2", capacidad := 4 }, { id := "M3", capacidad := 4 }] })
    ∧ ∃ (solicitadas : Numero) (disponibles : List Mesa),
        getDisponibilidad storeA ⟨some "S01", some "2024-01-01", some "19:00", some "2"⟩
          = (storeA, .ok { status := 200,
                           body := .disponibilidad "S01"
                             (oPorDefecto (some "2024-01-01") "(no especificada)")
                             (oPorDefecto (some "19:00") "(no especificada)")
                             solicitadas disponibles })
        ∧ (∀ n : Int, parseInt10 (oPorDefecto (some "2") "1") = .entero n →
            solicitadas = .entero n
            ∧ disponibles = [({ id := "M1", capacidad := 2 } : Mesa),
                { id := "M2", capacidad := 4 }, { id := "M3", capacidad := 4 }].filter
                (fun m => decide (n ≤ m.capacidad
                  ∧ ¬ Ocupada storeA (some "S01") (some "2024-01-01") (some "19:00") m.id)))
        ∧ (parseInt10 (oPorDefecto (some "2") "1") = .nan → disponibles = [])
        ∧ (parseInt10 (oPorDefecto (some "2") "1") = .grande false → disponibles = [])
        ∧ (parseInt10 (oPorDefecto (some "2") "1") = .grande true →
            disponibles = [({ id := "M1", capacidad := 2 } : Mesa),
                { id := "M2", capacidad := 4 }, { id := "M3", capacidad := 4 }].filter
                (fun m => decide
                  (¬ Ocupada storeA (some "S01") (some "2024-01-01") (some "19:00") m.id))) :=
  ⟨by decide, by decide, by decide,
   disponibilidad_result storeA "S01" _ (some "2024-01-01") (some "19:00") (some "2")
     (by decide)⟩

/-- C6. Capacity invariant: in every reachable store, every active reservation
names a branch of the catalog, its `mesaId` is the id of a table of that branch,
and its `personas` is at most the `capacidad` of the table of that branch with
that id. -/
theorem capacity_invariant (s : Store) (h : Alcanzable s) (r : Reserva) (hr : r ∈ s.reservas)
    (_hact : r.estado = "CREADA") :
    ∃ k l, r.sucursalId = some k ∧ mesasPorSucursal k = .mesas l
      ∧ (∃ m ∈ l, m.id = r.mesaId)
      ∧ ∀ m ∈ l, m.id = r.mesaId → r.personas ≤ m.capacidad := by
  obtain ⟨l, mesa, hl, hf, hm⟩ := inv_primera_mesa s h r hr
  have hk := propertyKey_conocida hl
  have hmem : mesa ∈ l := List.mem_of_find?_eq_some hf
  have hcap : r.personas ≤ mesa.capacidad := by
    simpa [alcanza] using List.find?_some hf
  refine ⟨propertyKey r.sucursalId, l, hk, hl, ⟨mesa, hmem, hm⟩, ?_⟩
  intro m hml hid
  have : m = mesa := catalogo_ids_unicos hl m hml mesa hmem (hid.trans hm.symm)
  rw [this]; exact hcap

/-- Witness of C6: the reservation of scenario A. -/
theorem capacity_invariant_witness :
    Alcanzable storeA
    ∧ nuevaReserva 1 reqA 2 { id := "M1", capacidad := 2 } ∈ storeA.reservas
    ∧ (nuevaReserva 1 reqA 2 { id := "M1", capacidad := 2 }).estado = "CREADA"
    ∧ ∃ k l, (nuevaReserva 1 reqA 2 { id := "M1", capacidad := 2 }).sucursalId = some k
      ∧ mesasPorSucursal k = .mesas l
      ∧ (∃ m ∈ l, m.id = (nuevaReserva 1 reqA 2 { id := "M1", capacidad := 2 }).mesaId)
      ∧ ∀ m ∈ l, m.id = (nuevaReserva 1 reqA 2 { id := "M1", capacidad := 2 }).mesaId →
          (nuevaReserva 1 reqA 2 { id := "M1", capacidad := 2 }).personas ≤ m.capacidad :=
  ⟨⟨_, rfl⟩, by decide, by decide,
   capacity_invariant storeA ⟨_, rfl⟩ _ (by decide) (by decide)⟩


/-- C7, the code at the failing input. The request of scenario A without
`clienteId` is rejected by `POST /reservas` with 400 and no insertion, while the
SOAP operation runs the table selection on it and stores a reservation without
a customer. -/
theorem soap_create_skips_validation :
    reqSinCliente.completa = false
    ∧ postReservas Store.inicial reqSinCliente
        = (Store.inicial,
           .ok { status := 400,
                 body := .error "Faltan campos: clienteId, sucursalId, fecha, hora, personas" })
    ∧ CrearReserva Store.inicial reqSinCliente
        = ({ reservas := [{ id := "1", clienteId := none, sucursalId := some "S01",
                            fecha := some "2024-01-01", hora := some "19:00", personas := 2,
                            mesaId := "M1", estado := "CREADA" }],
             nextId := 2 },
           .ok { reservaId := "1", estado := "CREADA" }) := by
  decide

/-- C8, counterexample. A complete request to the unknown branch `S99` is
answered by `POST /reservas` with 409 and the no-capacity message, not with 400,
and by the SOAP operation with `SIN_MESA`. -/
theorem unknown_branch_validation_counterexample :
    reqS99.completa = true
    ∧ mesasPorSucursal "S99" = .indefinida
    ∧ postReservas Store.inicial reqS99
        = (Store.inicial,
           .ok { status := 409, body := .error "No hay mesa con capacidad suficiente" })
    ∧ CrearReserva Store.inicial reqS99
        = (Store.inicial, .ok { reservaId := "", estado := "SIN_MESA" }) := by
  decide

/-- C8, as amended. For every store and every complete create request whose
`sucursalId` is neither a key of the catalog nor a member name the catalog
object inherits, both create paths answer with their no-capacity outcome (REST
409 with the no-capacity message, SOAP `SIN_MESA`) and leave the store
unchanged. -/
theorem unknown_branch_no_capacity (s : Store) (b : CrearReservaRequest) (k : String)
    (hc : b.completa = true) (hk : b.sucursalId = some k)
    (h1 : k ≠ "S01") (h2 : k ≠ "S02") (h3 : k ∉ clavesHeredadas) :
    postReservas s b
        = (s, .ok { status := 409, body := .error "No hay mesa con capacidad suficiente" })
    ∧ CrearReserva s b = (s, .ok { reservaId := "", estado := "SIN_MESA" }) := by
  have hl : (mesasPorSucursal (propertyKey b.sucursalId)).oVacio = some [] := by
    rw [hk]; simp only [propertyKey, mesasPorSucursal, h1, h2, h3, if_false]; rfl
  exact ⟨postReservas_sinMesa s b [] hc hl rfl, CrearReserva_sinMesa s b [] hl rfl⟩

/-- Witness of C8 as amended: branch `S99` in the store of scenario A. -/
theorem unknown_branch_no_capacity_witness :
    reqS99.completa = true ∧ reqS99.sucursalId = some "S99"
    ∧ "S99" ≠ "S01" ∧ "S99" ≠ "S02" ∧ "S99" ∉ clavesHeredadas
    ∧ postReservas storeA reqS99
        = (storeA, .ok { status := 409, body := .error "No hay mesa con capacidad suficiente" })
    ∧ CrearReserva storeA reqS99 = (storeA, .ok { reservaId := "", estado := "SIN_MESA" }) :=
  ⟨by decide, by decide, by decide, by decide, by decide,
   unknown_branch_no_capacity storeA reqS99 "S99" (by decide) (by decide) (by decide)
     (by decide) (by decide)⟩

/-- C9. No capacity: for every store and every complete request to a branch of
the catalog none of whose tables has `capacidad` at least `personas`, `POST
/reservas` answers 409 with the no-capacity message and the SOAP operation
answers `SIN_MESA`, whatever the store holds, and the store is unchanged. -/
theorem no_capacity (s : Store) (b : CrearReservaRequest) (l : List Mesa) (n : Int)
    (hc : b.completa = true)
    (hl : mesasPorSucursal (propertyKey b.sucursalId) = .mesas l)
    (hn : b.personas = some n)
    (hno : ∀ m ∈ l, m.capacidad < n) :
    postReservas s b
        = (s, .ok { status := 409, body := .error "No hay mesa con capacidad suficiente" })
    ∧ CrearReserva s b = (s, .ok { reservaId := "", estado := "SIN_MESA" }) := by
  have hl2 : (mesasPorSucursal (propertyKey b.sucursalId)).oVacio = some l := by
    rw [hl]; rfl
  have hf : l.find? (fun m => alcanza m.capacidad b.personas) = none := by
    rw [List.find?_eq_none, hn]
    intro m hm
    simpa [alcanza] using hno m hm
  exact ⟨postReservas_sinMesa s b l hc hl2 hf, CrearReserva_sinMesa s b l hl2 hf⟩

/-- Witness of C9: 5 people at S01, whose largest table seats 4, in the store of
scenario A. -/
theorem no_capacity_witness :
    reqD.completa = true
    ∧ mesasPorSucursal (propertyKey reqD.sucursalId)
        = .mesas [{ id := "M1", capacidad := 2 }, { id := "M2", capacidad := 4 },
                  { id := "M3", capacidad := 4 }]
    ∧ reqD.personas = some 5
    ∧ (∀ m ∈ [({ id := "M1", capacidad := 2 } : Mesa), { id := "M2", capacidad := 4 },
              { id := "M3", capacidad := 4 }], m.capacidad < 5)
    ∧ postReservas storeA reqD
        = (storeA, .ok { status := 409, body := .error "No hay mesa con capacidad suficiente" })
    ∧ CrearReserva storeA reqD = (storeA, .ok { reservaId := "", estado := "SIN_MESA" }) :=
  ⟨by decide, by decide, by decide, by decide,
   no_capacity storeA reqD
     [{ id := "M1", capacidad := 2 }, { id := "M2", capacidad := 4 },
      { id := "M3", capacidad := 4 }]
     5 (by decide) (by decide) (by decide) (by decide)⟩


/-- C10. Cancel is idempotent: for every store and every id present in it, the
first `DELETE /reservas/:id` answers 200 with `estado` CANCELADA, and after any
number `n ≥ 1` of such calls the store is the store after one call and one more
call answers the same 200 and leaves that store as it is. -/
theorem cancel_idempotent (s : Store) (id : String) (h : ∃ r ∈ s.reservas, r.id = id)
    (n : Nat) (hn : 1 ≤ n) :
    (deleteReserva s id).2 = .ok { status := 200, body := .cancelada true "CANCELADA" }
    ∧ (fun t => (deleteReserva t id).1)^[n] s = (deleteReserva s id).1
    ∧ deleteReserva ((fun t => (deleteReserva t id).1)^[n] s) id
        = ((deleteReserva s id).1,
           .ok { status := 200, body := .cancelada true "CANCELADA" }) := by
  have h2 := deleteReserva_deleteReserva s id h
  have hit : (fun t => (deleteReserva t id).1)^[n] s = (deleteReserva s id).1 := by
    obtain ⟨k, rfl⟩ : ∃ k, n = k + 1 := ⟨n - 1, by omega⟩
    rw [Function.iterate_succ_apply]
    exact Function.iterate_fixed (by rw [h2]) k
  refine ⟨?_, hit, ?_⟩
  · obtain ⟨idx, -, hd⟩ := deleteReserva_encontrada s id h
    rw [hd]
  · rw [hit]; exact h2

/-- Witness of C10: cancelling the reservation of scenario A three times. -/
theorem cancel_idempotent_witness :
    (∃ r ∈ storeA.reservas, r.id = "1") ∧ 1 ≤ 3
    ∧ (deleteReserva storeA "1").2
        = .ok { status := 200, body := .cancelada true "CANCELADA" }
    ∧ (fun t => (deleteReserva t "1").1)^[3] storeA = (deleteReserva storeA "1").1
    ∧ deleteReserva ((fun t => (deleteReserva t "1").1)^[3] storeA) "1"
        = ((deleteReserva storeA "1").1,
           .ok { status := 200, body := .cancelada true "CANCELADA" }) :=
  ⟨by decide, by decide, cancel_idempotent storeA "1" (by decide) 3 (by decide)⟩


/-- C11, the code at the failing input. The SOAP operation accepts a request
without `fecha` and `hora` and stores it on M1 of S01 with both fields
undefined; the availability query for 2 people at S01 with `fecha` and `hora`
omitted then leaves M1 out, although M1, M2 and M3 all seat 2 people. -/
theorem disponibilidad_sin_fecha_soap :
    Alcanzable storeSinFecha
    ∧ storeSinFecha.reservas
        = [{ id := "1", clienteId := some "C1", sucursalId := some "S01", fecha := none,
             hora := none, personas := 2, mesaId := "M1", estado := "CREADA" }]
    ∧ mesasPorSucursal "S01"
        = .mesas [{ id := "M1", capacidad := 2 }, { id := "M2", capacidad := 4 },
                  { id := "M3", capacidad := 4 }]
    ∧ (getDisponibilidad storeSinFecha querySinFecha).2
        = .ok { status := 200,
                body := .disponibilidad "S01" "(no especificada)" "(no especificada)" (.entero 2)
                  [{ id := "M2", capacidad := 4 }, { id := "M3", capacidad := 4 }] } :=
  ⟨⟨_, rfl⟩, by decide, by decide, by decide⟩

/-- C12. Successful create postcondition: whenever `POST /reservas` answers 201,
or the SOAP operation answers with `estado` CREADA, the new store is the old one
with exactly one reservation appended and `nextId` incremented by one; that
reservation has the decimal string of the old `nextId` as id, the `clienteId`,
`sucursalId`, `fecha`, `hora` and `personas` of the request and `estado` CREADA,
and the response carries that id and CREADA. -/
theorem create_postcondition (s : Store) (b : CrearReservaRequest) :
    (∀ resp, (postReservas s b).2 = .ok resp → resp.status = 201 →
      ∃ r, (postReservas s b).1 = { reservas := s.reservas ++ [r], nextId := s.nextId + 1 }
        ∧ r.id = toString s.nextId ∧ r.clienteId = b.clienteId
        ∧ r.sucursalId = b.sucursalId ∧ r.fecha = b.fecha ∧ r.hora = b.hora
        ∧ some r.personas = b.personas ∧ r.estado = "CREADA"
        ∧ resp.body = .creada r.id "CREADA")
    ∧ (∀ resp, (CrearReserva s b).2 = .ok resp → resp.estado = "CREADA" →
      ∃ r, (CrearReserva s b).1 = { reservas := s.reservas ++ [r], nextId := s.nextId + 1 }
        ∧ r.id = toString s.nextId ∧ r.clienteId = b.clienteId
        ∧ r.sucursalId = b.sucursalId ∧ r.fecha = b.fecha ∧ r.hora = b.hora
        ∧ some r.personas = b.personas ∧ r.estado = "CREADA"
        ∧ resp = { reservaId := r.id, estado := "CREADA" }) := by
  constructor
  · intro resp h hst
    obtain ⟨l, mesa, n, -, -, hn, -, -, he⟩ := postReservas_exito s b resp h hst
    refine ⟨nuevaReserva s.nextId b n mesa, by rw [he], rfl, rfl, rfl, rfl, rfl, hn.symm, rfl, ?_⟩
    rw [he] at h
    cases h
    rfl
  · intro resp h hest
    obtain ⟨l, mesa, n, -, -, hn, -, he⟩ := CrearReserva_exito s b resp h hest
    refine ⟨nuevaReserva s.nextId b n mesa, by rw [he], rfl, rfl, rfl, rfl, rfl, hn.symm, rfl, ?_⟩
    rw [he] at h
    cases h
    rfl

/-- Witness of C12: scenario A on the start-up store is assigned M1 with
`estado` CREADA and id `1`. -/
theorem create_postcondition_witness :
    postReservas Store.inicial reqA
        = ({ reservas := [{ id := "1", clienteId := some "C1", sucursalId := some "S01",
                            fecha := some "2024-01-01", hora := some "19:00", personas := 2,
                            mesaId := "M1", estado := "CREADA" }],
             nextId := 2 },
           .ok { status := 201, body := .creada "1" "CREADA" })
    ∧ ∃ r, (postReservas Store.inicial reqA).1
          = { reservas := Store.inicial.reservas ++ [r], nextId := Store.inicial.nextId + 1 }
        ∧ r.id = toString Store.inicial.nextId ∧ r.clienteId = reqA.clienteId
        ∧ r.sucursalId = reqA.sucursalId ∧ r.fecha = reqA.fecha ∧ r.hora = reqA.hora
        ∧ some r.personas = reqA.personas ∧ r.estado = "CREADA"
        ∧ (RestResponse.mk 201 (.creada "1" "CREADA")).body = .creada r.id "CREADA" :=
  ⟨by decide,
   (create_postcondition Store.inicial reqA).1 { status := 201, body := .creada "1" "CREADA" }
     (by decide) (by decide)⟩


/-- C13. Reservation ids are unique and monotone: in every reachable store the
ids are pairwise distinct, each is the decimal string of a positive integer
below `nextId`, and an earlier reservation has the smaller number; no call
changes the id found at a position of the store, `nextId` never decreases, and
the ids are still pairwise distinct after the call, so no id is assigned twice. -/
theorem ids_unique_monotone (s : Store) (h : Alcanzable s) :
    (s.reservas.map (·.id)).Nodup
    ∧ (∀ r ∈ s.reservas, ∃ n : Nat, 0 < n ∧ n < s.nextId ∧ r.id = toString n)
    ∧ (∀ (i j : Nat) (ri rj : Reserva), i < j → s.reservas[i]? = some ri →
        s.reservas[j]? = some rj →
        ∃ a b : Nat, ri.id = toString a ∧ rj.id = toString b ∧ a < b)
    ∧ ∀ c : Llamada,
        (∀ (i : Nat) (r : Reserva), s.reservas[i]? = some r →
          ∃ r2 : Reserva, (paso s c).reservas[i]? = some r2 ∧ r2.id = r.id)
        ∧ ((paso s c).reservas.map (·.id)).Nodup
        ∧ s.nextId ≤ (paso s c).nextId := by
  obtain ⟨hn, hs⟩ := inv_ids s h
  refine ⟨ids_nodup s h, ?_, ?_, ?_⟩
  · intro r hr
    obtain ⟨i, hi, rfl⟩ := List.mem_iff_getElem.1 hr
    exact ⟨i + 1, by omega, by omega, hs i _ (List.getElem?_eq_getElem hi)⟩
  · intro i j ri rj hij h1 h2
    exact ⟨i + 1, j + 1, hs i ri h1, hs j rj h2, by omega⟩
  · intro c
    refine ⟨?_, ids_nodup _ (alcanzable_paso s h c), nextId_paso s c⟩
    intro i r hr
    obtain ⟨r2, h2, hid, -⟩ := ids_paso s c i r hr
    exact ⟨r2, h2, hid⟩

/-- Witness of C13: the store with the two reservations `1` and `2`. -/
theorem ids_unique_monotone_witness :
    Alcanzable storeDos
    ∧ storeDos.reservas.map (·.id) = ["1", "2"]
    ∧ (storeDos.reservas.map (·.id)).Nodup
    ∧ ∀ r ∈ storeDos.reservas, ∃ n : Nat, 0 < n ∧ n < storeDos.nextId ∧ r.id = toString n :=
  ⟨⟨_, rfl⟩, by decide, (ids_unique_monotone storeDos ⟨_, rfl⟩).1,
   (ids_unique_monotone storeDos ⟨_, rfl⟩).2.1⟩


/-- C14. Cancel is a status flip only: for every store and every id present in
it, `DELETE /reservas/:id` keeps `nextId`, the number of reservations and their
order; the reservation at each position is the old one, or the old one with only
`estado` set to CANCELADA, and it is the old one whenever its id differs;
`GET /reservas/:id` afterwards answers 200 with the reservation it resolved to
before, all fields as before except `estado`, now CANCELADA.  For an id that is
not present the answer is 404 and the store is unchanged. -/
theorem cancel_status_flip (s : Store) (id : String) :
    ((∃ r ∈ s.reservas, r.id = id) →
      (deleteReserva s id).1.nextId = s.nextId
      ∧ (deleteReserva s id).1.reservas.length = s.reservas.length
      ∧ (∀ (i : Nat) (r : Reserva), s.reservas[i]? = some r →
          ∃ r2 : Reserva, (deleteReserva s id).1.reservas[i]? = some r2
            ∧ (r.id ≠ id → r2 = r)
            ∧ (r2 = r ∨ r2 = { r with estado := "CANCELADA" }))
      ∧ ∃ r0 : Reserva, s.reservas.find? (fun x => x.id == id) = some r0
          ∧ getReserva (deleteReserva s id).1 id
              = ((deleteReserva s id).1,
                 .ok { status := 200, body := .reserva { r0 with estado := "CANCELADA" } }))
    ∧ ((∀ r ∈ s.reservas, r.id ≠ id) →
      deleteReserva s id = (s, .ok { status := 404, body := .error "No encontrada" })) := by
  refine ⟨?_, deleteReserva_noEncontrada s id⟩
  intro h
  obtain ⟨idx, hidx, hd⟩ := deleteReserva_encontrada s id h
  rw [hd]
  refine ⟨rfl, List.length_modify _ _ _, ?_, ?_⟩
  · intro i r hr
    simp only [List.getElem?_modify, hr, Option.map_eq_map, Option.map_some']
    by_cases hx : idx = i
    · refine ⟨cancelar r, by simp [hx], ?_, Or.inr rfl⟩
      intro hne
      exfalso
      obtain ⟨hlt, hp, -⟩ := List.findIdx?_eq_some_iff_getElem.1 hidx
      obtain ⟨hi, e⟩ := List.getElem?_eq_some_iff.1 hr
      subst hx
      rw [e] at hp
      exact hne (by simpa using hp)
    · exact ⟨r, by simp [hx], fun _ => rfl, Or.inl rfl⟩
  · cases hf : s.reservas.find? (fun x => x.id == id) with
    | none =>
      exfalso
      rw [List.find?_eq_none] at hf
      obtain ⟨r, hr, hid⟩ := h
      exact hf r hr (by simp [hid])
    | some r0 =>
      refine ⟨r0, rfl, ?_⟩
      have := find_modify_findIdx (fun x : Reserva => x.id == id) cancelar (fun _ => rfl)
        s.reservas idx hidx
      rw [hf] at this
      simp only [getReserva, this, Option.map_some']
      rfl

/-- Witness of C14: cancelling the reservation of scenario A. -/
theorem cancel_status_flip_witness :
    (∃ r ∈ storeA.reservas, r.id = "1")
    ∧ (deleteReserva storeA "1").1.nextId = storeA.nextId
    ∧ (deleteReserva storeA "1").1.reservas.length = storeA.reservas.length
    ∧ (∀ r ∈ storeA.reservas, r.id ≠ "7")
    ∧ deleteReserva storeA "7" = (storeA, .ok { status := 404, body := .error "No encontrada" }) :=
  ⟨by decide, ((cancel_status_flip storeA "1").1 (by decide)).1,
   ((cancel_status_flip storeA "1").1 (by decide)).2.1, by decide,
   (cancel_status_flip storeA "7").2 (by decide)⟩


/-- C15. Cross-adapter visibility: in every reachable store, right after a SOAP
create that answered CREADA with id `i`, `GET /reservas/i` answers 200 with the
reservation just stored, and `GET /disponibilidad` for the `sucursalId`, `fecha`
and `hora` of the request answers with a list that does not contain its table;
right after a REST create that answered 201, every SOAP create for the same
`sucursalId`, `fecha` and `hora` whose selected table is the table of the new
reservation answers OCUPADA and leaves the store as it is. -/
theorem cross_adapter_visibility (s : Store) (h : Alcanzable s) :
    (∀ (a : CrearReservaRequest) (i : String),
      (CrearReserva s a).2 = .ok { reservaId := i, estado := "CREADA" } →
      ∃ r : Reserva, r ∈ (CrearReserva s a).1.reservas ∧ r.id = i
        ∧ r.sucursalId = a.sucursalId ∧ r.fecha = a.fecha ∧ r.hora = a.hora
        ∧ getReserva (CrearReserva s a).1 i
            = ((CrearReserva s a).1, .ok { status := 200, body := .reserva r })
        ∧ ∀ personas : Option String, ∃ sucursal fecha hora solicitadas disponibles,
            (getDisponibilidad (CrearReserva s a).1
                ⟨a.sucursalId, a.fecha, a.hora, personas⟩).2
              = .ok { status := 200,
                      body := .disponibilidad sucursal fecha hora solicitadas disponibles }
            ∧ ∀ m ∈ disponibles, m.id ≠ r.mesaId)
    ∧ (∀ (b : CrearReservaRequest) (i : String),
      (postReservas s b).2 = .ok { status := 201, body := .creada i "CREADA" } →
      ∃ r : Reserva, r ∈ (postReservas s b).1.reservas ∧ r.id = i
        ∧ ∀ (a : CrearReservaRequest) (l : List Mesa) (n : Int) (mesa : Mesa),
            a.sucursalId = b.sucursalId → a.fecha = b.fecha → a.hora = b.hora →
            mesasPorSucursal (propertyKey a.sucursalId) = .mesas l →
            a.personas = some n →
            l.find? (fun m => decide (n ≤ m.capacidad)) = some mesa →
            mesa.id = r.mesaId →
            CrearReserva (postReservas s b).1 a
              = ((postReservas s b).1, .ok { reservaId := "", estado := "OCUPADA" })) := by
  constructor
  · intro a i hok
    obtain ⟨l, mesa, n, hl, hf, hn, ho, he⟩ := CrearReserva_exito s a _ hok rfl
    have hi : i = toString s.nextId := by
      rw [he] at hok
      simp only [Except.ok.injEq, CrearReservaResponse.mk.injEq, and_true] at hok
      exact hok.symm
    rw [he, hi]
    refine ⟨nuevaReserva s.nextId a n mesa, by simp, rfl, rfl, rfl, rfl,
      getReserva_nueva s h _ rfl _, ?_⟩
    intro personas
    rw [getDisponibilidad_conocida _ ⟨a.sucursalId, a.fecha, a.hora, personas⟩ l hl]
    refine ⟨_, _, _, _, _, rfl, ?_⟩
    intro m hm hid
    rw [List.mem_filter] at hm
    have h2 := hm.2
    simp only [Bool.and_eq_true, decide_eq_true_eq] at h2
    exact h2.1 ⟨nuevaReserva s.nextId a n mesa, by simp, rfl, rfl, rfl, hid.symm⟩
  · intro b i hok
    obtain ⟨l, mesa, n, hl, hf, hn, ho, hc, he⟩ := postReservas_exito s b _ hok rfl
    have hi : i = toString s.nextId := by
      rw [he] at hok
      simp only [Except.ok.injEq, RestResponse.mk.injEq, RestBody.creada.injEq, and_true,
        true_and] at hok
      exact hok.symm
    rw [he, hi]
    refine ⟨nuevaReserva s.nextId b n mesa, by simp, rfl, ?_⟩
    intro a l2 n2 mesa2 hsuc hfe hho hl2 hn2 hf2 hm2
    have hl3 : (mesasPorSucursal (propertyKey a.sucursalId)).oVacio = some l2 := by
      rw [hl2]; rfl
    have hf3 : l2.find? (fun m => alcanza m.capacidad a.personas) = some mesa2 := by
      rw [hn2]; exact hf2
    exact CrearReserva_ocupada _ a l2 mesa2 hl3 hf3
      ⟨nuevaReserva s.nextId b n mesa, by simp, hsuc.symm, hfe.symm, hho.symm, hm2.symm⟩

/-- Witness of C15: scenario A sent to the SOAP operation at start-up is visible
to `GET /reservas/1`, and sent over REST it makes the same SOAP request answer
OCUPADA. -/
theorem cross_adapter_visibility_witness :
    Alcanzable Store.inicial
    ∧ (CrearReserva Store.inicial reqA).2 = .ok { reservaId := "1", estado := "CREADA" }
    ∧ (postReservas Store.inicial reqA).2 = .ok { status := 201, body := .creada "1" "CREADA" }
    ∧ (∃ r : Reserva, r ∈ (CrearReserva Store.inicial reqA).1.reservas ∧ r.id = "1"
        ∧ r.sucursalId = reqA.sucursalId ∧ r.fecha = reqA.fecha ∧ r.hora = reqA.hora
        ∧ getReserva (CrearReserva Store.inicial reqA).1 "1"
            = ((CrearReserva Store.inicial reqA).1, .ok { status := 200, body := .reserva r })
        ∧ ∀ personas : Option String, ∃ sucursal fecha hora solicitadas disponibles,
            (getDisponibilidad (CrearReserva Store.inicial reqA).1
                ⟨reqA.sucursalId, reqA.fecha, reqA.hora, personas⟩).2
              = .ok { status := 200,
                      body := .disponibilidad sucursal fecha hora solicitadas disponibles }
            ∧ ∀ m ∈ disponibles, m.id ≠ r.mesaId)
    ∧ CrearReserva (postReservas Store.inicial reqA).1 reqA
        = ((postReservas Store.inicial reqA).1, .ok { reservaId := "", estado := "OCUPADA" }) :=
  ⟨⟨[], rfl⟩, by decide, by decide,
   (cross_adapter_visibility Store.inicial ⟨[], rfl⟩).1 reqA "1" (by decide),
   by decide⟩


/-- C16. Cancelled is terminal: in every reachable store the `estado` of every
reservation is CREADA or CANCELADA, and a reservation that is CANCELADA stays at
its position, unchanged and hence CANCELADA, after every further sequence of
creates, cancels, lookups and availability queries. -/
theorem cancelled_terminal (s : Store) (h : Alcanzable s) :
    (∀ r ∈ s.reservas, r.estado = "CREADA" ∨ r.estado = "CANCELADA")
    ∧ ∀ (i : Nat) (r : Reserva), s.reservas[i]? = some r → r.estado = "CANCELADA" →
        ∀ llamadas : List Llamada,
          (ejecutar s llamadas).reservas[i]? = some r
          ∧ ∀ r2 ∈ (ejecutar s llamadas).reservas,
              r2.estado = "CREADA" ∨ r2.estado = "CANCELADA" :=
  ⟨inv_estado s h, fun i r hr hc llamadas =>
    ⟨cancelada_persiste llamadas s i r hr hc,
     inv_estado _ (alcanzable_ejecutar s h llamadas)⟩⟩

/-- Witness of C16: the cancelled reservation of scenario A stays cancelled
through the same request again, a second cancel and a lookup. -/
theorem cancelled_terminal_witness :
    Alcanzable storeACancelada
    ∧ storeACancelada.reservas[0]?
        = some { id := "1", clienteId := some "C1", sucursalId := some "S01",
                 fecha := some "2024-01-01", hora := some "19:00", personas := 2,
                 mesaId := "M1", estado := "CANCELADA" }
    ∧ (ejecutar storeACancelada
          [.postReservas reqA, .crearReservaSoap reqA20, .deleteReserva "1",
           .getReserva "1"]).reservas[0]?
        = some { id := "1", clienteId := some "C1", sucursalId := some "S01",
                 fecha := some "2024-01-01", hora := some "19:00", personas := 2,
                 mesaId := "M1", estado := "CANCELADA" } :=
  ⟨⟨_, rfl⟩, by decide,
   ((cancelled_terminal storeACancelada ⟨_, rfl⟩).2 0 _ (by decide) (by decide)
      [.postReservas reqA, .crearReservaSoap reqA20, .deleteReserva "1", .getReserva "1"]).1⟩


/-- C17, the code at the failing input. The member name `constructor` is not a
branch of the catalog, but the lookup `mesasPorSucursal[sucursal]` finds the
inherited member, the guard lets the request through and the handler throws
instead of answering 400. -/
theorem disponibilidad_inherited_name_throws :
    queryConstructor.sucursal = some "constructor"
    ∧ mesasPorSucursal "constructor" = .heredada
    ∧ getDisponibilidad Store.inicial queryConstructor = (Store.inicial, .error .typeError) := by
  decide

/-- C18, the code at the failing input. The request of scenario A with
`sucursalId` equal to `constructor` has all five fields present, yet neither
path produces one of the three result pairs: the lookup
`mesasPorSucursal[sucursalId] || []` yields the inherited member, calling `find`
on it throws, and both `POST /reservas` and the SOAP operation end in a
`TypeError`. -/
theorem create_paths_inherited_name_throw :
    reqConstructor.completa = true
    ∧ mesasPorSucursal "constructor" = .heredada
    ∧ postReservas Store.inicial reqConstructor = (Store.inicial, .error .typeError)
    ∧ CrearReserva Store.inicial reqConstructor = (Store.inicial, .error .typeError)
    ∧ ¬ (∃ id : String, (postReservas Store.inicial reqConstructor).2
          = .ok { status := 201, body := .creada id "CREADA" })
    ∧ (postReservas Store.inicial reqConstructor).2
        ≠ .ok { status := 409, body := .error "No hay mesa con capacidad suficiente" }
    ∧ (postReservas Store.inicial reqConstructor).2
        ≠ .ok { status := 409, body := .error "Mesa ocupada en ese horario" } := by
  refine ⟨by decide, by decide, by decide, by decide, ?_, by decide, by decide⟩
  rintro ⟨id, h⟩
  rw [show (postReservas Store.inicial reqConstructor).2 = .error .typeError by decide] at h
  cases h

/-- C19. Only the first capacity-fitting table is ever assigned: in every
reachable store the `mesaId` of every reservation is the id of the first table,
in catalog order, of its branch whose `capacidad` is at least its `personas`; no
reservation is on M3 of S01 or on M2 of S02; and two positions of the store that
agree on `sucursalId`, `fecha`, `hora` and `mesaId` are the same position,
whatever the `estado`. -/
theorem only_first_fitting_table (s : Store) (h : Alcanzable s) :
    (∀ r ∈ s.reservas, ∃ (k : String) (l : List Mesa) (mesa : Mesa),
        r.sucursalId = some k ∧ mesasPorSucursal k = .mesas l
        ∧ l.find? (fun m => decide (r.personas ≤ m.capacidad)) = some mesa
        ∧ r.mesaId = mesa.id)
    ∧ (∀ r ∈ s.reservas, ¬ (r.sucursalId = some "S01" ∧ r.mesaId = "M3")
        ∧ ¬ (r.sucursalId = some "S02" ∧ r.mesaId = "M2"))
    ∧ (∀ (i j : Nat) (ri rj : Reserva), s.reservas[i]? = some ri → s.reservas[j]? = some rj →
        ri.sucursalId = rj.sucursalId → ri.fecha = rj.fecha → ri.hora = rj.hora →
        ri.mesaId = rj.mesaId → i = j) := by
  have hprim : ∀ r ∈ s.reservas, ∃ (k : String) (l : List Mesa) (mesa : Mesa),
      r.sucursalId = some k ∧ mesasPorSucursal k = .mesas l
      ∧ l.find? (fun m => decide (r.personas ≤ m.capacidad)) = some mesa
      ∧ r.mesaId = mesa.id := by
    intro r hr
    obtain ⟨l, mesa, hl, hf, hm⟩ := inv_primera_mesa s h r hr
    exact ⟨propertyKey r.sucursalId, l, mesa, propertyKey_conocida hl, hl, hf, hm.symm⟩
  refine ⟨hprim, ?_, ?_⟩
  · intro r hr
    obtain ⟨k, l, mesa, hk, hl, hf, hm⟩ := hprim r hr
    constructor
    · rintro ⟨hs, hm3⟩
      rw [hk, Option.some.injEq] at hs
      subst hs
      have hl2 : l = [{ id := "M1", capacidad := 2 }, { id := "M2", capacidad := 4 },
          { id := "M3", capacidad := 4 }] := by
        have : mesasPorSucursal "S01" = .mesas [{ id := "M1", capacidad := 2 },
          { id := "M2", capacidad := 4 }, { id := "M3", capacidad := 4 }] := by decide
        rw [this] at hl
        injection hl with hl
        exact hl.symm
      subst hl2
      rw [hm3] at hm
      by_cases h2 : r.personas ≤ 2
      · simp [List.find?_cons, h2] at hf
        rw [← hf] at hm
        exact absurd hm (by decide)
      · by_cases h4 : r.personas ≤ 4
        · simp [List.find?_cons, h2, h4] at hf
          rw [← hf] at hm
          exact absurd hm (by decide)
        · simp [List.find?_cons, h2, h4] at hf
    · rintro ⟨hs, hm2⟩
      rw [hk, Option.some.injEq] at hs
      subst hs
      have hl2 : l = [{ id := "M1", capacidad := 2 }, { id := "M2", capacidad := 2 }] := by
        have : mesasPorSucursal "S02" = .mesas [{ id := "M1", capacidad := 2 },
          { id := "M2", capacidad := 2 }] := by decide
        rw [this] at hl
        injection hl with hl
        exact hl.symm
      subst hl2
      rw [hm2] at hm
      by_cases h2 : r.personas ≤ 2
      · simp [List.find?_cons, h2] at hf
        rw [← hf] at hm
        exact absurd hm (by decide)
      · simp [List.find?_cons, h2] at hf
  · intro i j ri rj h1 h2 ha hf hh hm
    have hnd := inv_slots s h
    obtain ⟨hi, e1⟩ := List.getElem?_eq_some_iff.1 h1
    obtain ⟨hj, e2⟩ := List.getElem?_eq_some_iff.1 h2
    have hi2 : i < (s.reservas.map slotKey).length := by simpa using hi
    have hj2 : j < (s.reservas.map slotKey).length := by simpa using hj
    have hk : (s.reservas.map slotKey)[i] = (s.reservas.map slotKey)[j] := by
      simp only [List.getElem_map, e1, e2, slotKey, ha, hf, hh, hm]
    exact hnd.getElem_inj_iff.1 hk

/-- Witness of C19: both reservations of `storeDos` are on M1, the first table of
S01 that seats 2 people. -/
theorem only_first_fitting_table_witness :
    Alcanzable storeDos
    ∧ storeDos.reservas.map (·.mesaId) = ["M1", "M1"]
    ∧ ∀ r ∈ storeDos.reservas, ¬ (r.sucursalId = some "S01" ∧ r.mesaId = "M3")
        ∧ ¬ (r.sucursalId = some "S02" ∧ r.mesaId = "M2") :=
  ⟨⟨_, rfl⟩, by decide, (only_first_fitting_table storeDos ⟨_, rfl⟩).2.1⟩

/-- C20. Failures and reads are no-ops: for every store, a REST create answered
with 400 or 409, a SOAP create answered with `SIN_MESA` or `OCUPADA`, a cancel or
a lookup of an id that is not in the store, every lookup and every availability
query return the store (`reservas` and `nextId`) exactly as it was; and a call
after which the store differs is a REST create answered 201, a SOAP create
answered CREADA, or a cancel of an id that is in the store. -/
theorem failures_and_reads_are_noops (s : Store) :
    (∀ (b : CrearReservaRequest) (resp : RestResponse), (postReservas s b).2 = .ok resp →
        resp.status = 400 ∨ resp.status = 409 → (postReservas s b).1 = s)
    ∧ (∀ (a : CrearReservaRequest) (resp : CrearReservaResponse),
        (CrearReserva s a).2 = .ok resp →
        resp.estado = "SIN_MESA" ∨ resp.estado = "OCUPADA" → (CrearReserva s a).1 = s)
    ∧ (∀ id : String, (∀ r ∈ s.reservas, r.id ≠ id) →
        (deleteReserva s id).1 = s ∧ (getReserva s id).1 = s)
    ∧ (∀ id : String, (getReserva s id).1 = s)
    ∧ (∀ q : DisponibilidadQuery, (getDisponibilidad s q).1 = s)
    ∧ (∀ c : Llamada, paso s c ≠ s →
        (∃ (b : CrearReservaRequest) (id : String), c = .postReservas b
          ∧ (postReservas s b).2 = .ok { status := 201, body := .creada id "CREADA" })
        ∨ (∃ (a : CrearReservaRequest) (id : String), c = .crearReservaSoap a
          ∧ (CrearReserva s a).2 = .ok { reservaId := id, estado := "CREADA" })
        ∨ (∃ id : String, c = .deleteReserva id ∧ ∃ r ∈ s.reservas, r.id = id)) := by
  refine ⟨?_, ?_, ?_, getReserva_store s, getDisponibilidad_store s, ?_⟩
  · intro b resp h hst
    rcases postReservas_full s b with ⟨-, h1⟩ | h1 | h1 | h1 | ⟨l, mesa, n, -, -, -, -, -, h1⟩
    · rw [h1]
    · rw [h1]
    · rw [h1]
    · rw [h1]
    · exfalso
      rw [h1] at h
      cases h
      simp at hst
  · intro a resp h hest
    rcases CrearReserva_full s a with h1 | h1 | h1 | ⟨l, mesa, n, -, -, -, -, h1⟩
    · rw [h1]
    · rw [h1]
    · rw [h1]
    · exfalso
      rw [h1] at h
      cases h
      simp at hest
  · intro id hno
    exact ⟨by rw [deleteReserva_noEncontrada s id hno], getReserva_store s id⟩
  · intro c hne
    cases c with
    | postReservas b =>
      rcases postReservas_full s b with ⟨-, h1⟩ | h1 | h1 | h1 | ⟨l, mesa, n, -, -, -, -, -, h1⟩
      · exact absurd (by simp only [paso, h1]) hne
      · exact absurd (by simp only [paso, h1]) hne
      · exact absurd (by simp only [paso, h1]) hne
      · exact absurd (by simp only [paso, h1]) hne
      · exact Or.inl ⟨b, toString s.nextId, rfl, by rw [h1]⟩
    | crearReservaSoap a =>
      rcases CrearReserva_full s a with h1 | h1 | h1 | ⟨l, mesa, n, -, -, -, -, h1⟩
      · exact absurd (by simp only [paso, h1]) hne
      · exact absurd (by simp only [paso, h1]) hne
      · exact absurd (by simp only [paso, h1]) hne
      · exact Or.inr (Or.inl ⟨a, toString s.nextId, rfl, by rw [h1]⟩)
    | getReserva id => exact absurd (getReserva_store s id) hne
    | deleteReserva id =>
      by_cases h : ∃ r ∈ s.reservas, r.id = id
      · exact Or.inr (Or.inr ⟨id, rfl, h⟩)
      · have hd := deleteReserva_noEncontrada s id (by
          intro r hr hid; exact h ⟨r, hr, hid⟩)
        exact absurd (by simp only [paso, hd]) hne
    | getDisponibilidad q => exact absurd (getDisponibilidad_store s q) hne

/-- Witness of C20: in the store of scenario A the repeated request is answered
409 and the SOAP one `OCUPADA`, the id `7` is unknown, and none of these calls
changes the store. -/
theorem failures_and_reads_are_noops_witness :
    (postReservas storeA reqA).2
        = .ok { status := 409, body := .error "Mesa ocupada en ese horario" }
    ∧ (postReservas storeA reqA).1 = storeA
    ∧ (CrearReserva storeA reqA).2 = .ok { reservaId := "", estado := "OCUPADA" }
    ∧ (CrearReserva storeA reqA).1 = storeA
    ∧ (∀ r ∈ storeA.reservas, r.id ≠ "7")
    ∧ ((deleteReserva storeA "7").1 = storeA ∧ (getReserva storeA "7").1 = storeA) :=
  ⟨by decide,
   (failures_and_reads_are_noops storeA).1 reqA
     { status := 409, body := .error "Mesa ocupada en ese horario" } (by decide)
     (Or.inr (by decide)),
   by decide,
   (failures_and_reads_are_noops storeA).2.1 reqA { reservaId := "", estado := "OCUPADA" }
     (by decide) (Or.inr (by decide)),
   by decide,
   (failures_and_reads_are_noops storeA).2.2.1 "7" (by decide)⟩

end Reservas
